import Mathlib

/-!
# Aspia: host entry point, router entry point, user-session manager

A shallow embedding of

* `source/host/ui/host_main.cc`  (`waitForValidInputDesktop`, `hostMain`),
* `source/router/main.cc`        (`generateKeys`, `generateAndPrintKeys`, `createConfig`,
                                  `main`, `wmain`),
* `source/host/user_session.h`, `source/host/user_session_manager.h`
                                 (the data model of `UserSession` / `UserSessionManager`).

Calls into collaborators (Qt, the Windows process helpers, the settings utility, the
filesystem, the database, the key generator) are modelled as oracles bundled in an
environment record, and every such call is recorded in an event trace, in program order.
Diagnostic output (the `LOG(...)` lines and the progress messages on `std::cout`) is not
recorded; the two key lines printed by `generateAndPrintKeys` are.
-/

namespace Aspia

/-! ## `base::CommandLine` -/

/-- A `base::CommandLine` as the two entry points observe it (`base/command_line.h` is not
among the sources): what `hasSwitch(name)` and `switchValuePath(name)` answer for each
switch name. -/
structure CommandLine where
  /-- Source: `CommandLine::hasSwitch(name)` -/
  hasSwitch : String → Bool
  /-- Source: `CommandLine::switchValuePath(name)` -/
  switchValuePath : String → String

namespace CommandLine

/-- The command line that carries the given switches, each with its value: a switch is
present when it is listed, and its path value is the listed one, empty when absent. -/
def ofSwitches (switches : List (String × String)) : CommandLine :=
  { hasSwitch := fun name => (switches.lookup name).isSome,
    switchValuePath := fun name => (switches.lookup name).getD "" }

end CommandLine

/-! ## `host/ui/host_main.cc` -/

namespace Host

/-- The collaborator calls made by `hostMain`, in the order in which the trace records
them. -/
inductive Event where
  /-- Source: `base::Desktop::inputDesktop()` -/
  | inputDesktop
  /-- Source: `input_desktop.setThreadDesktop()` -/
  | setThreadDesktop
  /-- Source: `Sleep(100)` -/
  | sleep
  /-- Source: `base::win::isProcessElevated()` -/
  | isProcessElevated
  /-- Source: `base::win::createProcess(command_line, ProcessExecuteMode::ELEVATE)` -/
  | createProcess
  /-- construction of `host::Application application(argc, argv)` -/
  | application
  /-- Source: `host::integrityCheck()` -/
  | integrityCheck
  /-- the message box "Application integrity check failed. ..." -/
  | integrityWarning
  /-- the message box "Export and import parameters can not be specified together." -/
  | conflictWarning
  /-- Source: `host::SettingsUtil::importFromFile(path, silent)` -/
  | importFromFile (path : String) (silent : Bool)
  /-- Source: `host::SettingsUtil::exportToFile(path, silent)` -/
  | exportToFile (path : String) (silent : Bool)
  /-- Source: `common::UpdateDialog dialog(...)` followed by `dialog.show()` -/
  | updateDialogShow
  /-- Source: `dialog.activateWindow()` -/
  | updateDialogActivate
  /-- Source: `application.isRunning()` -/
  | isRunning
  /-- Source: `application.activate()` -/
  | activate
  /-- construction of `host::MainWindow window` and its connection to `activated` -/
  | mainWindow
  /-- Source: `window.hideToTray()` -/
  | hideToTray
  /-- Source: `window.show()` -/
  | windowShow
  /-- Source: `window.activateWindow()` -/
  | windowActivate
  /-- Source: `window.connectToService()` -/
  | connectToService
  /-- Source: `application.exec()` -/
  | exec
deriving DecidableEq, Repr

/-- What the collaborators answer during one run of `hostMain`. -/
structure Env where
  /-- whether attempt `i` (counted from 0) finds `input_desktop.isValid()` -/
  inputDesktopValid : Nat → Bool
  /-- whether `setThreadDesktop()` succeeds on attempt `i` -/
  setThreadDesktop : Nat → Bool
  isProcessElevated : Bool
  /-- result of `createProcess(command_line, ELEVATE)` -/
  createProcess : Bool
  integrityCheck : Bool
  importFromFile : String → Bool → Bool
  exportToFile : String → Bool → Bool
  isRunning : Bool
  /-- the value `application.exec()` returns -/
  exec : Int

/-- The `do { ... } while (--max_attempt_count > 0);` loop of `waitForValidInputDesktop`,
entered for attempt number `i` with `max_attempt_count = n + 1`.  It yields the calls made
and the value of `max_attempt_count` on leaving the loop. -/
def attemptLoop (env : Env) (i : Nat) : Nat → List Event × Nat
  | 0 =>
    if env.inputDesktopValid i then
      if env.setThreadDesktop i then
        ([.inputDesktop, .setThreadDesktop], 1)
      else
        ([.inputDesktop, .setThreadDesktop, .sleep], 0)
    else
      ([.inputDesktop, .sleep], 0)
  | n + 1 =>
    if env.inputDesktopValid i then
      if env.setThreadDesktop i then
        ([.inputDesktop, .setThreadDesktop], n + 2)
      else
        let rest := attemptLoop env (i + 1) n
        ([.inputDesktop, .setThreadDesktop, .sleep] ++ rest.1, rest.2)
    else
      let rest := attemptLoop env (i + 1) n
      ([.inputDesktop, .sleep] ++ rest.1, rest.2)

/-- Source: `waitForValidInputDesktop()`: the calls made and the returned `bool`. -/
def waitForValidInputDesktop (env : Env) : List Event × Bool :=
  let max_attempt_count := 600
  let loop := attemptLoop env 0 (max_attempt_count - 1)
  if loop.2 == 0 then
    (loop.1, false)
  else
    (loop.1, true)

/-- One run of `hostMain`: the collaborator calls, in order, and the returned exit code. -/
structure Run where
  trace : List Event
  exitCode : Int
deriving DecidableEq, Repr

/-- Source: `hostMain(argc, argv)`. -/
def hostMain (command_line : CommandLine) (env : Env) : Run := Id.run do
  let mut trace : List Event := []
  let is_hidden := command_line.hasSwitch "hidden"
  if !is_hidden then
    trace := trace ++ [.isProcessElevated]
    if !env.isProcessElevated then
      trace := trace ++ [.createProcess]
      if env.createProcess then
        return ⟨trace, 0⟩
  else
    let wait := waitForValidInputDesktop env
    trace := trace ++ wait.1
    if !wait.2 then
      return ⟨trace, 1⟩
  trace := trace ++ [.application, .integrityCheck]
  if !env.integrityCheck then
    trace := trace ++ [.integrityWarning]
    return ⟨trace, 1⟩
  if command_line.hasSwitch "import" && command_line.hasSwitch "export" then
    if !command_line.hasSwitch "silent" then
      trace := trace ++ [.conflictWarning]
    return ⟨trace, 1⟩
  else if command_line.hasSwitch "import" then
    let path := command_line.switchValuePath "import"
    let silent := command_line.hasSwitch "silent"
    trace := trace ++ [.importFromFile path silent]
    if !env.importFromFile path silent then
      return ⟨trace, 1⟩
  else if command_line.hasSwitch "export" then
    let path := command_line.switchValuePath "export"
    let silent := command_line.hasSwitch "silent"
    trace := trace ++ [.exportToFile path silent]
    if !env.exportToFile path silent then
      return ⟨trace, 1⟩
  else if command_line.hasSwitch "update" then
    trace := trace ++ [.updateDialogShow, .updateDialogActivate, .exec]
    return ⟨trace, env.exec⟩
  else if command_line.hasSwitch "help" then
    pure ()
  else
    trace := trace ++ [.isRunning]
    if env.isRunning then
      trace := trace ++ [.activate]
    else
      trace := trace ++ [.mainWindow]
      if is_hidden then
        trace := trace ++ [.hideToTray]
      else
        trace := trace ++ [.windowShow, .windowActivate]
      trace := trace ++ [.connectToService, .exec]
      return ⟨trace, env.exec⟩
  return ⟨trace, 0⟩

/-- The part of `hostMain` that follows the elevation / input-desktop stage, from the
construction of `application` on, as a function of its own; `hostMain_split` relates it to
`hostMain`. -/
def hostMainFrom (command_line : CommandLine) (env : Env) : Run := Id.run do
  let mut trace : List Event := [.application, .integrityCheck]
  if !env.integrityCheck then
    trace := trace ++ [.integrityWarning]
    return ⟨trace, 1⟩
  if command_line.hasSwitch "import" && command_line.hasSwitch "export" then
    if !command_line.hasSwitch "silent" then
      trace := trace ++ [.conflictWarning]
    return ⟨trace, 1⟩
  else if command_line.hasSwitch "import" then
    let path := command_line.switchValuePath "import"
    let silent := command_line.hasSwitch "silent"
    trace := trace ++ [.importFromFile path silent]
    if !env.importFromFile path silent then
      return ⟨trace, 1⟩
  else if command_line.hasSwitch "export" then
    let path := command_line.switchValuePath "export"
    let silent := command_line.hasSwitch "silent"
    trace := trace ++ [.exportToFile path silent]
    if !env.exportToFile path silent then
      return ⟨trace, 1⟩
  else if command_line.hasSwitch "update" then
    trace := trace ++ [.updateDialogShow, .updateDialogActivate, .exec]
    return ⟨trace, env.exec⟩
  else if command_line.hasSwitch "help" then
    pure ()
  else
    trace := trace ++ [.isRunning]
    if env.isRunning then
      trace := trace ++ [.activate]
    else
      trace := trace ++ [.mainWindow]
      if command_line.hasSwitch "hidden" then
        trace := trace ++ [.hideToTray]
      else
        trace := trace ++ [.windowShow, .windowActivate]
      trace := trace ++ [.connectToService, .exec]
      return ⟨trace, env.exec⟩
  return ⟨trace, 0⟩

/-- The calls of the elevation / input-desktop stage of `hostMain`. -/
def Event.isStartup : Event → Bool
  | .inputDesktop | .setThreadDesktop | .sleep | .isProcessElevated | .createProcess => true
  | _ => false

/-- The six branches of `hostMain` after the integrity check, in the order in which C10
lists them. -/
inductive Branch where
  | conflict
  | doImport
  | doExport
  | update
  | help
  | run
deriving DecidableEq, Repr

/-- The branch C10 says is taken: the first match in the order `import` and `export`
together, `import`, `export`, `update`, `help`, default. -/
def selectBranch (command_line : CommandLine) : Branch :=
  if command_line.hasSwitch "import" && command_line.hasSwitch "export" then .conflict
  else if command_line.hasSwitch "import" then .doImport
  else if command_line.hasSwitch "export" then .doExport
  else if command_line.hasSwitch "update" then .update
  else if command_line.hasSwitch "help" then .help
  else .run

/-- The branch of `hostMain` whose body makes the call, for the calls that occur in one
branch only (`application.exec()` occurs in two, the `help` branch makes no call). -/
def Event.branch : Event → Option Branch
  | .conflictWarning => some .conflict
  | .importFromFile _ _ => some .doImport
  | .exportToFile _ _ => some .doExport
  | .updateDialogShow | .updateDialogActivate => some .update
  | .isRunning | .activate | .mainWindow | .hideToTray | .windowShow | .windowActivate
  | .connectToService => some .run
  | _ => none

/-- An environment in which the process is elevated and every collaborator succeeds;
`application.exec()` returns 7. -/
def envOk : Env :=
  { inputDesktopValid := fun _ => true, setThreadDesktop := fun _ => true,
    isProcessElevated := true, createProcess := false, integrityCheck := true,
    importFromFile := fun _ _ => true, exportToFile := fun _ _ => true,
    isRunning := false, exec := 7 }

/-- An environment in which no valid input desktop is ever found, and every other
collaborator succeeds. -/
def envNoDesktop : Env :=
  { envOk with inputDesktopValid := fun _ => false }

/-- Whether attempt `i` (counted from 0) of `waitForValidInputDesktop` succeeds: the input
desktop is valid and `setThreadDesktop()` succeeds on it. -/
def attemptSucceeds (env : Env) (i : Nat) : Bool :=
  env.inputDesktopValid i && env.setThreadDesktop i

/-- An environment in which the first 599 attempts find no valid input desktop and every
later one succeeds; every other collaborator succeeds. -/
def envLastAttempt : Env :=
  { envOk with inputDesktopValid := fun i => decide (599 ≤ i) }

end Host

/-! ## `router/main.cc` -/

namespace Router

/-- Source: `base::ByteArray`. -/
abbrev ByteArray := List Nat

/-- Source: `std::filesystem::path`, as its list of components. -/
abbrev Path := List String

/-- Modelled from the spec: `base::User` (`base/peer/user.h` is not among the sources), the
record of section 3: entry id, user name, password verifier, mask of permitted session
kinds, flags. -/
structure User where
  entry_id : Nat
  name : String
  verifier : ByteArray
  sessions : Nat
  flags : Nat
deriving DecidableEq, Repr

/-- A `base::KeyPair` as `createConfig` and `generateKeys` observe it. -/
structure KeyPair where
  isValid : Bool
  privateKey : ByteArray
  publicKey : ByteArray
deriving DecidableEq, Repr

/-- The collaborator calls made by `generateKeys`, `generateAndPrintKeys` and
`createConfig`. -/
inductive Event where
  /-- Source: `std::filesystem::exists(path, error_code)` -/
  | fileExists (path : Path)
  /-- Source: `base::BasePaths::commonAppData(&public_key_dir)` -/
  | commonAppData
  /-- Source: `std::filesystem::create_directories(path, error_code)` -/
  | createDirectories (path : Path)
  /-- Source: `router::DatabaseFactorySqlite().createDatabase()` -/
  | createDatabase
  /-- Source: `router::DatabaseFactorySqlite().openDatabase()` -/
  | openDatabase
  /-- Source: `base::User::create(name, password)` -/
  | userCreate (name password : String)
  /-- Source: `db->addUser(user)` -/
  | addUser (user : User)
  /-- Source: `base::KeyPair::create(base::KeyPair::Type::X25519)` -/
  | keyPairCreate
  /-- Source: `base::writeFile(path, content)` -/
  | writeFile (path : Path) (content : String)
  /-- construction of `router::Settings settings` -/
  | settings
  /-- Source: `settings.reset()` -/
  | settingsReset
  /-- Source: `settings.setPrivateKey(private_key)` -/
  | settingsSetPrivateKey (private_key : ByteArray)
  /-- Source: `settings.flush()` -/
  | settingsFlush
  /-- the two lines "Private key: ..." and "Public key: ..." written to `std::cout` -/
  | printKeys (private_hex public_hex : String)
deriving DecidableEq, Repr

/-- The constants `createConfig` uses and what the collaborators answer during one run. -/
structure Env where
  /-- Source: `proto::ROUTER_SESSION_ADMIN` -/
  ROUTER_SESSION_ADMIN : Nat
  /-- Source: `proto::ROUTER_SESSION_CLIENT` -/
  ROUTER_SESSION_CLIENT : Nat
  /-- Source: `base::User::ENABLED` -/
  ENABLED : Nat
  /-- Source: `router::Settings::filePath()` -/
  settingsFilePath : Path
  /-- Source: `exists(settings_file_path)` -/
  settingsFileExists : Bool
  /-- result of `commonAppData(&public_key_dir)` -/
  commonAppData : Bool
  /-- the directory `commonAppData` stores in `public_key_dir` -/
  commonAppDataPath : Path
  /-- Source: `exists(public_key_dir)` -/
  publicKeyDirExists : Bool
  /-- result of `create_directories(public_key_dir)` -/
  createDirectories : Bool
  /-- Source: `exists(public_key_file)` -/
  publicKeyFileExists : Bool
  /-- whether `createDatabase()` returns a database -/
  createDatabase : Bool
  /-- whether `openDatabase()` returns a database -/
  openDatabase : Bool
  /-- Source: `base::User::create` -/
  userCreate : String → String → User
  /-- Source: `user.isValid()` -/
  userIsValid : User → Bool
  /-- result of `db->addUser(user)` -/
  addUser : User → Bool
  /-- Source: `base::KeyPair::create(X25519)` -/
  keyPair : KeyPair
  /-- Source: `base::toHex` -/
  toHex : ByteArray → String
  /-- result of `base::writeFile(path, content)` -/
  writeFile : Path → String → Bool

/-- Source: `generateKeys(&private_key, &public_key)`: the calls made, the returned `bool`, and the
two out-parameters as they are left. -/
def generateKeys (env : Env) (private_key public_key : ByteArray) :
    List Event × Bool × ByteArray × ByteArray :=
  let key_pair := env.keyPair
  if !key_pair.isValid then
    ([.keyPairCreate], false, private_key, public_key)
  else
    let private_key := key_pair.privateKey
    let public_key := key_pair.publicKey
    if private_key.isEmpty || public_key.isEmpty then
      ([.keyPairCreate], false, private_key, public_key)
    else
      ([.keyPairCreate], true, private_key, public_key)

/-- Source: `generateAndPrintKeys()`. -/
def generateAndPrintKeys (env : Env) : List Event :=
  let private_key : ByteArray := []
  let public_key : ByteArray := []
  let r := generateKeys env private_key public_key
  if !r.2.1 then
    r.1
  else
    r.1 ++ [.printKeys (env.toHex r.2.2.1) (env.toHex r.2.2.2)]

/-- Source: `createConfig()`. -/
def createConfig (env : Env) : List Event := Id.run do
  let mut trace : List Event := []
  let settings_file_path := env.settingsFilePath
  trace := trace ++ [.fileExists settings_file_path]
  if env.settingsFileExists then
    return trace
  trace := trace ++ [.commonAppData]
  if !env.commonAppData then
    return trace
  let public_key_dir := env.commonAppDataPath ++ ["aspia"]
  trace := trace ++ [.fileExists public_key_dir]
  if !env.publicKeyDirExists then
    trace := trace ++ [.createDirectories public_key_dir]
    if !env.createDirectories then
      return trace
  let public_key_file := public_key_dir ++ ["router.pub"]
  trace := trace ++ [.fileExists public_key_file]
  if env.publicKeyFileExists then
    return trace
  trace := trace ++ [.createDatabase]
  if !env.createDatabase then
    trace := trace ++ [.openDatabase]
    return trace
  let kUserName := "admin"
  let kPassword := "admin"
  let user := env.userCreate kUserName kPassword
  trace := trace ++ [.userCreate kUserName kPassword]
  if !env.userIsValid user then
    return trace
  let user := { user with sessions := env.ROUTER_SESSION_ADMIN ||| env.ROUTER_SESSION_CLIENT }
  let user := { user with flags := env.ENABLED }
  trace := trace ++ [.addUser user]
  if !env.addUser user then
    return trace
  let keys := generateKeys env [] []
  trace := trace ++ keys.1
  if !keys.2.1 then
    return trace
  let private_key := keys.2.2.1
  let public_key := keys.2.2.2
  trace := trace ++ [.writeFile public_key_file (env.toHex public_key)]
  if !env.writeFile public_key_file (env.toHex public_key) then
    return trace
  trace := trace ++ [.settings, .settingsReset, .settingsSetPrivateKey private_key,
    .settingsFlush]
  return trace

/-- Source: `showHelp()`: the switches listed on `std::cout`, in the order printed; `os_win` says
whether the build defines `OS_WIN`. -/
def showHelp (os_win : Bool) : List String :=
  (if os_win then ["--install", "--remove", "--start", "--stop"] else []) ++
    ["--create-config", "--keygen", "--help"]

/-- The operations the router entry point chooses between. -/
inductive Operation where
  /-- Source: `router::installService()` -/
  | installService
  /-- Source: `router::removeService()` -/
  | removeService
  /-- Source: `router::startService()` -/
  | startService
  /-- Source: `router::stopService()` -/
  | stopService
  /-- Source: `generateAndPrintKeys()`, with the calls it made -/
  | generateAndPrintKeys (calls : List Event)
  /-- Source: `createConfig()`, with the calls it made -/
  | createConfig (calls : List Event)
  /-- Source: `showHelp()`, with the switches it listed -/
  | showHelp (listed : List String)
  /-- Source: `router::Service().exec()` -/
  | serviceExec
  /-- Source: `server->start()` followed by `message_loop->run()` -/
  | serverStart
deriving DecidableEq, Repr

/-- One run of the router entry point: the operations carried out between `initLogging()`
and `shutdownLogging()`, in order, and the value returned to the operating system. -/
structure Run where
  operations : List Operation
  exitCode : Int
deriving DecidableEq, Repr

/-- Source: `wmain()`, the entry point of a build with `OS_WIN`. -/
def wmain (command_line : CommandLine) (env : Env) : Run := Id.run do
  let mut operations : List Operation := []
  if command_line.hasSwitch "install" then
    operations := operations ++ [.installService]
  else if command_line.hasSwitch "remove" then
    operations := operations ++ [.removeService]
  else if command_line.hasSwitch "start" then
    operations := operations ++ [.startService]
  else if command_line.hasSwitch "stop" then
    operations := operations ++ [.stopService]
  else if command_line.hasSwitch "keygen" then
    operations := operations ++ [.generateAndPrintKeys (generateAndPrintKeys env)]
  else if command_line.hasSwitch "create-config" then
    operations := operations ++ [.createConfig (createConfig env)]
  else if command_line.hasSwitch "help" then
    operations := operations ++ [.showHelp (showHelp true)]
  else
    operations := operations ++ [.serviceExec]
  return ⟨operations, 0⟩

/-- Source: `main(argc, argv)`, the entry point of a build without `OS_WIN`.  The function has no
`return` statement; leaving `main` at its closing brace returns 0. -/
def main (command_line : CommandLine) (env : Env) : Run := Id.run do
  let mut operations : List Operation := []
  if command_line.hasSwitch "keygen" then
    operations := operations ++ [.generateAndPrintKeys (generateAndPrintKeys env)]
  else if command_line.hasSwitch "create-config" then
    operations := operations ++ [.createConfig (createConfig env)]
  else if command_line.hasSwitch "help" then
    operations := operations ++ [.showHelp (showHelp false)]
  else
    operations := operations ++ [.serverStart]
  return ⟨operations, 0⟩

/-- The users passed to `Database::addUser` in a trace, in call order. -/
def addedUsers (trace : List Event) : List User :=
  trace.filterMap fun e =>
    match e with
    | .addUser user => some user
    | _ => none

/-- An environment for a first installation: nothing exists yet and every collaborator
succeeds. -/
def envFresh : Env :=
  { ROUTER_SESSION_ADMIN := 4, ROUTER_SESSION_CLIENT := 1, ENABLED := 1,
    settingsFilePath := ["etc", "aspia", "router.json"],
    settingsFileExists := false, commonAppData := true, commonAppDataPath := ["var", "lib"],
    publicKeyDirExists := false, createDirectories := true, publicKeyFileExists := false,
    createDatabase := true, openDatabase := false,
    userCreate := fun name _ => ⟨0, name, [1, 2, 3], 0, 0⟩,
    userIsValid := fun _ => true, addUser := fun _ => true,
    keyPair := ⟨true, [10, 11], [12, 13]⟩,
    toHex := fun bytes => String.join (bytes.map fun b => (Nat.toDigits 16 b).asString),
    writeFile := fun _ _ => true }

/-- The user `createConfig` passes to `Database::addUser`. -/
def adminUser (env : Env) : User :=
  { env.userCreate "admin" "admin" with
    sessions := env.ROUTER_SESSION_ADMIN ||| env.ROUTER_SESSION_CLIENT,
    flags := env.ENABLED }

/-- The path `public_key_file` of `createConfig`: `router.pub` in the directory `aspia`
under the common application-data path. -/
def publicKeyFile (env : Env) : Path :=
  env.commonAppDataPath ++ ["aspia"] ++ ["router.pub"]

/-- The steps of `createConfig` up to the creation of the database succeed: the settings
file does not exist, the common application-data path is obtained, the key directory
exists or is created, `router.pub` does not exist, a new database is created. -/
def databaseCreated (env : Env) : Bool :=
  !env.settingsFileExists && env.commonAppData &&
    (env.publicKeyDirExists || env.createDirectories) &&
    !env.publicKeyFileExists && env.createDatabase

/-- Every step of `createConfig` before the settings are written succeeds, in the order of
C12: the steps up to the creation of the database, then the administrator is valid and
added, the generated key pair is valid with both keys non-empty, and the hex of the public
key is written to `router.pub`. -/
def earlierStepsSucceed (env : Env) : Bool :=
  databaseCreated env &&
    env.userIsValid (env.userCreate "admin" "admin") && env.addUser (adminUser env) &&
    env.keyPair.isValid && !env.keyPair.privateKey.isEmpty &&
    !env.keyPair.publicKey.isEmpty &&
    env.writeFile (publicKeyFile env) (env.toHex env.keyPair.publicKey)

/-- The calls of a run of `createConfig` in which every step succeeds, in order; the
directory is created only when it does not exist. -/
def successTrace (env : Env) : List Event :=
  [.fileExists env.settingsFilePath, .commonAppData,
    .fileExists (env.commonAppDataPath ++ ["aspia"])] ++
  (if env.publicKeyDirExists then []
    else [.createDirectories (env.commonAppDataPath ++ ["aspia"])]) ++
  [.fileExists (publicKeyFile env), .createDatabase, .userCreate "admin" "admin",
    .addUser (adminUser env), .keyPairCreate,
    .writeFile (publicKeyFile env) (env.toHex env.keyPair.publicKey),
    .settings, .settingsReset, .settingsSetPrivateKey env.keyPair.privateKey,
    .settingsFlush]

end Router

/-! ## `host/user_session.h`, `host/user_session_manager.h` -/

namespace Host

/-- Source: `base::SessionId`. -/
abbrev SessionId := Nat

/-- Source: `base::HostId`. -/
abbrev HostId := Nat

/-- Source: `base::kInvalidHostId`, the reserved sentinel of section 3. -/
def kInvalidHostId : HostId := 0

/-- The identity of a `base::IpcChannel`. -/
abbrev IpcChannel := Nat

/-- Source: `UserSession::Type`. -/
inductive UserSessionType where
  | CONSOLE
  | RDP
deriving DecidableEq, Repr

/-- Source: `UserSession::State`. -/
inductive UserSessionState where
  | STARTED
  | DETTACHED
  | FINISHED
deriving DecidableEq, Repr

/-- The data members of `UserSession` (`user_session.h`); client sessions and the router
state are kept by identity. -/
structure UserSession where
  channel_ : Option IpcChannel
  type_ : UserSessionType
  state_ : UserSessionState
  session_id_ : SessionId
  router_state_ : Nat
  host_id_ : HostId
  password_ : String
  desktop_clients_ : List Nat
  file_transfer_clients_ : List Nat
deriving DecidableEq, Repr

namespace UserSession

/-- Source: `UserSession::sessionId()`. -/
def sessionId (session : UserSession) : SessionId := session.session_id_

/-- Source: `UserSession::state()`. -/
def state (session : UserSession) : UserSessionState := session.state_

/-- Modelled from the spec: the constructor `UserSession(task_runner, session_id, channel)`
(`user_session.cc` is not among the sources).  It stores its arguments; the other members
take the default member initialisers of `user_session.h` (`state_ = State::DETTACHED`,
`host_id_ = base::kInvalidHostId`).  How `type_` is chosen is not specified, it is an
argument here. -/
def create (session_id : SessionId) (channel : IpcChannel) (type : UserSessionType) :
    UserSession :=
  { channel_ := some channel, type_ := type, state_ := .DETTACHED, session_id_ := session_id,
    router_state_ := 0, host_id_ := kInvalidHostId, password_ := "",
    desktop_clients_ := [], file_transfer_clients_ := [] }

/-- Modelled from the spec: `UserSession::start(delegate)` (`user_session.cc` is not among
the sources), section 4.E: initial wiring with the UI helper attached, which is the state
STARTED. -/
def start (session : UserSession) : UserSession :=
  { session with state_ := .STARTED }

/-- Modelled from the spec: `UserSession::restart(channel)` (`user_session.cc` is not
among the sources), section 4.E: rebinds the helper to the new channel and moves to
STARTED; client sessions are preserved. -/
def restart (session : UserSession) (channel : IpcChannel) : UserSession :=
  { session with channel_ := some channel, state_ := .STARTED }

/-- The members of a `UserSession` that its operations assign after construction:
everything but `session_id_` and `type_`. -/
structure Assigned where
  channel_ : Option IpcChannel
  state_ : UserSessionState
  router_state_ : Nat
  host_id_ : HostId
  password_ : String
  desktop_clients_ : List Nat
  file_transfer_clients_ : List Nat

/-- Modelled from the spec: the effect on one `UserSession` of any of its operations other
than the constructor (`setSessionEvent`, `setRouterState`, `setHostId`, `addNewSession`,
the listener callbacks, the attach timer): section 4.E has them change the state, the
channel, the cached router state, host id and password and the client lists, never the OS
session the `UserSession` supervises. -/
def assign (session : UserSession) (v : Assigned) : UserSession :=
  { session with
    channel_ := v.channel_, state_ := v.state_, router_state_ := v.router_state_,
    host_id_ := v.host_id_, password_ := v.password_,
    desktop_clients_ := v.desktop_clients_,
    file_transfer_clients_ := v.file_transfer_clients_ }

end UserSession

/-- The data members of `UserSessionManager` (`user_session_manager.h`) that hold user
sessions and router state. -/
structure UserSessionManager where
  sessions_ : List UserSession
  router_state_ : Nat
deriving DecidableEq, Repr

namespace UserSessionManager

/-- Modelled from the spec: the search of `addUserSession` through `sessions_`
(`user_session_manager.cc` is not among the sources): the first session whose
`sessionId()` is `session_id` is restarted with `channel`; `none` when there is no such
session. -/
def restartExisting (session_id : SessionId) (channel : IpcChannel) :
    List UserSession → Option (List UserSession)
  | [] => none
  | session :: rest =>
    if session.sessionId = session_id then
      some (session.restart channel :: rest)
    else
      (restartExisting session_id channel rest).map (fun r => session :: r)

/-- Modelled from the spec: `UserSessionManager::addUserSession(session_id, channel)`
(`user_session_manager.cc` is not among the sources), section 4.F: "either creates a new
User Session or, if one exists for that os_session_id, calls restart(channel)".  A new
session is constructed, appended to `sessions_` and started. -/
def addUserSession (manager : UserSessionManager) (session_id : SessionId)
    (channel : IpcChannel) (type : UserSessionType) : UserSessionManager :=
  match restartExisting session_id channel manager.sessions_ with
  | some sessions => { manager with sessions_ := sessions }
  | none =>
    { manager with
      sessions_ := manager.sessions_ ++ [(UserSession.create session_id channel type).start] }

/-- Modelled from the spec: the operations of section 4.F that fan out to the user sessions
(`setSessionEvent`, `setRouterState`, `setHostId`, `addNewSession`) and the transitions the
sessions make on their own (IPC drop, attach timeout): each session is updated in place by
`UserSession.assign`. -/
def fanOut (manager : UserSessionManager) (router_state : Nat)
    (f : UserSession → UserSession.Assigned) : UserSessionManager :=
  { router_state_ := router_state,
    sessions_ := manager.sessions_.map (fun session => session.assign (f session)) }

/-- Modelled from the spec: `UserSessionManager::onUserSessionFinished()`
(`user_session_manager.cc` is not among the sources), section 4.E: a session that reached
FINISHED "is reaped by the Manager". -/
def onUserSessionFinished (manager : UserSessionManager) : UserSessionManager :=
  { manager with
    sessions_ := manager.sessions_.filter (fun session => session.state != .FINISHED) }

/-- Modelled from the spec: the states a `UserSessionManager` can be in
(`user_session_manager.cc` is not among the sources): it is constructed with no session,
and then changes by the operations above. -/
inductive Reachable : UserSessionManager → Prop where
  | init (router_state : Nat) : Reachable ⟨[], router_state⟩
  | addUserSession {manager : UserSessionManager} (session_id : SessionId)
      (channel : IpcChannel) (type : UserSessionType) :
      Reachable manager → Reachable (manager.addUserSession session_id channel type)
  | fanOut {manager : UserSessionManager} (router_state : Nat)
      (f : UserSession → UserSession.Assigned) :
      Reachable manager → Reachable (manager.fanOut router_state f)
  | onUserSessionFinished {manager : UserSessionManager} :
      Reachable manager → Reachable manager.onUserSessionFinished

end UserSessionManager

end Host

/-! ## Properties of `hostMain` -/

namespace Host

/-- Every call made by the loop of `waitForValidInputDesktop` is one of `inputDesktop`,
`setThreadDesktop`, `Sleep`. -/
theorem attemptLoop_events (env : Env) (n i : Nat) :
    ∀ e ∈ (attemptLoop env i n).1,
      e = .inputDesktop ∨ e = .setThreadDesktop ∨ e = .sleep := by
  induction n generalizing i with
  | zero =>
    intro e he
    unfold attemptLoop at he
    split_ifs at he <;> simp at he <;> aesop
  | succ n ih =>
    intro e he
    unfold attemptLoop at he
    split_ifs at he
    · simp at he; aesop
    · simp at he
      rcases he with h | h | h | h
      · simp [h]
      · simp [h]
      · simp [h]
      · exact ih _ e h
    · simp at he
      rcases he with h | h | h
      · simp [h]
      · simp [h]
      · exact ih _ e h

/-- Every call made by `waitForValidInputDesktop` is one of `inputDesktop`,
`setThreadDesktop`, `Sleep`. -/
theorem wait_events (env : Env) :
    ∀ e ∈ (waitForValidInputDesktop env).1,
      e = .inputDesktop ∨ e = .setThreadDesktop ∨ e = .sleep := by
  intro e he
  apply attemptLoop_events env 599 0
  simp only [waitForValidInputDesktop] at he
  split_ifs at he <;> simpa using he

set_option maxHeartbeats 4000000 in
/-- A run of `hostMain` is a startup stage followed either by an early return (0 after a
successful elevated relaunch, 1 after `waitForValidInputDesktop` failed under `hidden`) or
by the rest of the function. -/
theorem hostMain_split (command_line : CommandLine) (env : Env) :
    ∃ pre : List Event, (∀ e ∈ pre, e.isStartup = true) ∧
      ((hostMain command_line env = ⟨pre, 0⟩ ∧ command_line.hasSwitch "hidden" = false ∧
          env.isProcessElevated = false ∧ env.createProcess = true) ∨
        (hostMain command_line env = ⟨pre, 1⟩ ∧ command_line.hasSwitch "hidden" = true ∧
          (waitForValidInputDesktop env).2 = false) ∨
        hostMain command_line env =
          ⟨pre ++ (hostMainFrom command_line env).trace,
            (hostMainFrom command_line env).exitCode⟩) := by
  have hw : ∀ e ∈ (waitForValidInputDesktop env).1, e.isStartup = true := by
    intro e he
    rcases wait_events env e he with h | h | h <;> subst h <;> rfl
  cases hh : command_line.hasSwitch "hidden"
  · cases he : env.isProcessElevated
    · cases hc : env.createProcess
      · refine ⟨[.isProcessElevated, .createProcess], by simp [Event.isStartup], ?_⟩
        right; right
        simp only [hostMain, hostMainFrom, Id.run, hh, he, hc]
        cases env.integrityCheck <;> cases command_line.hasSwitch "import" <;>
          cases command_line.hasSwitch "export" <;> cases command_line.hasSwitch "silent" <;>
          cases command_line.hasSwitch "update" <;> cases command_line.hasSwitch "help" <;>
          cases env.isRunning <;> cases env.importFromFile _ _ <;>
          cases env.exportToFile _ _ <;> rfl
      · refine ⟨[.isProcessElevated, .createProcess], by simp [Event.isStartup], ?_⟩
        left
        simp [hostMain, Id.run, hh, he, hc]
    · refine ⟨[.isProcessElevated], by simp [Event.isStartup], ?_⟩
      right; right
      simp only [hostMain, hostMainFrom, Id.run, hh, he]
      cases env.integrityCheck <;> cases command_line.hasSwitch "import" <;>
        cases command_line.hasSwitch "export" <;> cases command_line.hasSwitch "silent" <;>
        cases command_line.hasSwitch "update" <;> cases command_line.hasSwitch "help" <;>
        cases env.isRunning <;> cases env.importFromFile _ _ <;>
        cases env.exportToFile _ _ <;> rfl
  · refine ⟨(waitForValidInputDesktop env).1, hw, ?_⟩
    simp only [hostMain, hostMainFrom, Id.run, hh]
    generalize waitForValidInputDesktop env = w
    obtain ⟨wt, wr⟩ := w
    cases wr
    · right; left
      simp
    · right; right
      cases env.integrityCheck <;> cases command_line.hasSwitch "import" <;>
        cases command_line.hasSwitch "export" <;> cases command_line.hasSwitch "silent" <;>
        cases command_line.hasSwitch "update" <;> cases command_line.hasSwitch "help" <;>
        cases env.isRunning <;> cases env.importFromFile _ _ <;>
        cases env.exportToFile _ _ <;> simp

/-- C1: when `import` and `export` are both present and the integrity check has been
reached and passed, `hostMain` returns 1 and calls neither `importFromFile` nor
`exportToFile`, whatever the other switches are. -/
theorem hostMain_import_export_conflict (command_line : CommandLine) (env : Env)
    (himport : command_line.hasSwitch "import" = true)
    (hexport : command_line.hasSwitch "export" = true)
    (hreached : Event.integrityCheck ∈ (hostMain command_line env).trace)
    (hintegrity : env.integrityCheck = true) :
    (hostMain command_line env).exitCode = 1 ∧
      ∀ path silent,
        Event.importFromFile path silent ∉ (hostMain command_line env).trace ∧
        Event.exportToFile path silent ∉ (hostMain command_line env).trace := by
  have h1 : ∀ p s, Event.importFromFile p s ∉ (waitForValidInputDesktop env).1 :=
    fun p s h => by simpa using wait_events env _ h
  have h2 : ∀ p s, Event.exportToFile p s ∉ (waitForValidInputDesktop env).1 :=
    fun p s h => by simpa using wait_events env _ h
  have h3 : Event.integrityCheck ∉ (waitForValidInputDesktop env).1 :=
    fun h => by simpa using wait_events env _ h
  revert hreached
  simp only [hostMain, himport, hexport, hintegrity, Id.run]
  generalize waitForValidInputDesktop env = w at *
  obtain ⟨wt, wr⟩ := w
  cases command_line.hasSwitch "hidden" <;> cases env.isProcessElevated <;>
    cases env.createProcess <;> cases command_line.hasSwitch "silent" <;> cases wr <;>
    simp_all

/-- C1 at the command line `--import=in.json --export=out.json --update --silent`. -/
theorem hostMain_import_export_conflict_witness :
    (hostMain (.ofSwitches [("import", "in.json"), ("export", "out.json"), ("update", ""),
        ("silent", "")]) envOk).exitCode = 1 ∧
      ∀ path silent,
        Event.importFromFile path silent ∉
          (hostMain (.ofSwitches [("import", "in.json"), ("export", "out.json"), ("update", ""),
            ("silent", "")]) envOk).trace ∧
        Event.exportToFile path silent ∉
          (hostMain (.ofSwitches [("import", "in.json"), ("export", "out.json"), ("update", ""),
            ("silent", "")]) envOk).trace :=
  hostMain_import_export_conflict _ envOk (by decide) (by decide) (by decide) (by decide)

/-- C2: when `hostMain` evaluates `integrityCheck()` and it reports failure, `hostMain`
returns 1 and starts no import, no export, no update dialog and no main window, for every
command line. -/
theorem hostMain_integrity_failure (command_line : CommandLine) (env : Env)
    (hreached : Event.integrityCheck ∈ (hostMain command_line env).trace)
    (hintegrity : env.integrityCheck = false) :
    (hostMain command_line env).exitCode = 1 ∧
      (∀ path silent,
        Event.importFromFile path silent ∉ (hostMain command_line env).trace ∧
        Event.exportToFile path silent ∉ (hostMain command_line env).trace) ∧
      Event.updateDialogShow ∉ (hostMain command_line env).trace ∧
      Event.mainWindow ∉ (hostMain command_line env).trace ∧
      Event.windowShow ∉ (hostMain command_line env).trace ∧
      Event.hideToTray ∉ (hostMain command_line env).trace ∧
      Event.exec ∉ (hostMain command_line env).trace := by
  have h1 : ∀ p s, Event.importFromFile p s ∉ (waitForValidInputDesktop env).1 :=
    fun p s h => by simpa using wait_events env _ h
  have h2 : ∀ p s, Event.exportToFile p s ∉ (waitForValidInputDesktop env).1 :=
    fun p s h => by simpa using wait_events env _ h
  have h3 : Event.integrityCheck ∉ (waitForValidInputDesktop env).1 :=
    fun h => by simpa using wait_events env _ h
  have h4 : Event.updateDialogShow ∉ (waitForValidInputDesktop env).1 :=
    fun h => by simpa using wait_events env _ h
  have h5 : Event.mainWindow ∉ (waitForValidInputDesktop env).1 :=
    fun h => by simpa using wait_events env _ h
  have h6 : Event.windowShow ∉ (waitForValidInputDesktop env).1 :=
    fun h => by simpa using wait_events env _ h
  have h7 : Event.hideToTray ∉ (waitForValidInputDesktop env).1 :=
    fun h => by simpa using wait_events env _ h
  have h8 : Event.exec ∉ (waitForValidInputDesktop env).1 :=
    fun h => by simpa using wait_events env _ h
  revert hreached
  simp only [hostMain, hintegrity, Id.run]
  generalize waitForValidInputDesktop env = w at *
  obtain ⟨wt, wr⟩ := w
  cases command_line.hasSwitch "hidden" <;> cases env.isProcessElevated <;>
    cases env.createProcess <;> cases wr <;> simp_all

/-- C2 at the command line `--import=in.json --update` with a failing integrity check. -/
theorem hostMain_integrity_failure_witness :
    (hostMain (.ofSwitches [("import", "in.json"), ("update", "")])
        { envOk with integrityCheck := false }).exitCode = 1 ∧
      (∀ path silent,
        Event.importFromFile path silent ∉
          (hostMain (.ofSwitches [("import", "in.json"), ("update", "")])
            { envOk with integrityCheck := false }).trace ∧
        Event.exportToFile path silent ∉
          (hostMain (.ofSwitches [("import", "in.json"), ("update", "")])
            { envOk with integrityCheck := false }).trace) ∧
      Event.updateDialogShow ∉ (hostMain (.ofSwitches [("import", "in.json"), ("update", "")])
        { envOk with integrityCheck := false }).trace ∧
      Event.mainWindow ∉ (hostMain (.ofSwitches [("import", "in.json"), ("update", "")])
        { envOk with integrityCheck := false }).trace ∧
      Event.windowShow ∉ (hostMain (.ofSwitches [("import", "in.json"), ("update", "")])
        { envOk with integrityCheck := false }).trace ∧
      Event.hideToTray ∉ (hostMain (.ofSwitches [("import", "in.json"), ("update", "")])
        { envOk with integrityCheck := false }).trace ∧
      Event.exec ∉ (hostMain (.ofSwitches [("import", "in.json"), ("update", "")])
        { envOk with integrityCheck := false }).trace :=
  hostMain_integrity_failure _ _ (by decide) (by decide)

/-- C3: when exactly one of `import` / `export` is present and the integrity check has
been reached and passed, `hostMain` calls the corresponding operation exactly once, with
that switch's path value and the presence of `silent`, returns 0 if it succeeds and 1 if
it fails, and starts neither the other operation, nor the update dialog, nor the main
window. -/
theorem hostMain_single_import_or_export (command_line : CommandLine) (env : Env)
    (hreached : Event.integrityCheck ∈ (hostMain command_line env).trace)
    (hintegrity : env.integrityCheck = true) :
    (command_line.hasSwitch "import" = true → command_line.hasSwitch "export" = false →
      (hostMain command_line env).trace.count
          (.importFromFile (command_line.switchValuePath "import")
            (command_line.hasSwitch "silent")) = 1 ∧
        (∀ path silent, Event.importFromFile path silent ∈ (hostMain command_line env).trace →
          path = command_line.switchValuePath "import" ∧
            silent = command_line.hasSwitch "silent") ∧
        (hostMain command_line env).exitCode =
          (if env.importFromFile (command_line.switchValuePath "import")
            (command_line.hasSwitch "silent") then 0 else 1) ∧
        (∀ path silent, Event.exportToFile path silent ∉ (hostMain command_line env).trace) ∧
        Event.updateDialogShow ∉ (hostMain command_line env).trace ∧
        Event.mainWindow ∉ (hostMain command_line env).trace ∧
        Event.exec ∉ (hostMain command_line env).trace) ∧
    (command_line.hasSwitch "import" = false → command_line.hasSwitch "export" = true →
      (hostMain command_line env).trace.count
          (.exportToFile (command_line.switchValuePath "export")
            (command_line.hasSwitch "silent")) = 1 ∧
        (∀ path silent, Event.exportToFile path silent ∈ (hostMain command_line env).trace →
          path = command_line.switchValuePath "export" ∧
            silent = command_line.hasSwitch "silent") ∧
        (hostMain command_line env).exitCode =
          (if env.exportToFile (command_line.switchValuePath "export")
            (command_line.hasSwitch "silent") then 0 else 1) ∧
        (∀ path silent, Event.importFromFile path silent ∉ (hostMain command_line env).trace) ∧
        Event.updateDialogShow ∉ (hostMain command_line env).trace ∧
        Event.mainWindow ∉ (hostMain command_line env).trace ∧
        Event.exec ∉ (hostMain command_line env).trace) := by
  rcases hostMain_split command_line env with ⟨pre, hpre, h | h | h⟩
  · rw [h.1] at hreached
    exact absurd (hpre _ hreached) (by decide)
  · rw [h.1] at hreached
    exact absurd (hpre _ hreached) (by decide)
  · rw [h]
    have n1 : ∀ p s, Event.importFromFile p s ∉ pre :=
      fun p s hm => absurd (hpre _ hm) (by simp [Event.isStartup])
    have n2 : ∀ p s, Event.exportToFile p s ∉ pre :=
      fun p s hm => absurd (hpre _ hm) (by simp [Event.isStartup])
    have n3 : Event.updateDialogShow ∉ pre := fun hm => absurd (hpre _ hm) (by decide)
    have n4 : Event.mainWindow ∉ pre := fun hm => absurd (hpre _ hm) (by decide)
    have n5 : Event.exec ∉ pre := fun hm => absurd (hpre _ hm) (by decide)
    have c1 : ∀ p s, pre.count (Event.importFromFile p s) = 0 :=
      fun p s => List.count_eq_zero.mpr (n1 p s)
    have c2 : ∀ p s, pre.count (Event.exportToFile p s) = 0 :=
      fun p s => List.count_eq_zero.mpr (n2 p s)
    simp only [hostMainFrom, Id.run, hintegrity]
    constructor
    · intro himport hexport
      simp only [himport, hexport]
      cases env.importFromFile (command_line.switchValuePath "import")
        (command_line.hasSwitch "silent") <;>
        simp [List.count_cons, n1, n2, n3, n4, n5, c1, c2]
    · intro himport hexport
      simp only [himport, hexport]
      cases env.exportToFile (command_line.switchValuePath "export")
        (command_line.hasSwitch "silent") <;>
        simp [List.count_cons, n1, n2, n3, n4, n5, c1, c2]

/-- C3 at the command line `--import=in.json --silent`. -/
theorem hostMain_single_import_or_export_witness :
    Event.integrityCheck ∈ (hostMain (.ofSwitches [("import", "in.json"), ("silent", "")]) envOk).trace ∧
      (hostMain (.ofSwitches [("import", "in.json"), ("silent", "")]) envOk).trace.count
        (.importFromFile "in.json" true) = 1 ∧
      (hostMain (.ofSwitches [("import", "in.json"), ("silent", "")]) envOk).exitCode = 0 :=
  ⟨by decide,
    ((hostMain_single_import_or_export (.ofSwitches [("import", "in.json"), ("silent", "")]) envOk
      (by decide) (by decide)).1 (by decide) (by decide)).1,
    ((hostMain_single_import_or_export (.ofSwitches [("import", "in.json"), ("silent", "")]) envOk
      (by decide) (by decide)).1 (by decide) (by decide)).2.2.1⟩

/-- When no attempt finds a valid input desktop, the loop of `waitForValidInputDesktop`
leaves `max_attempt_count` at 0. -/
theorem attemptLoop_no_desktop (env : Env) (hvalid : ∀ i, env.inputDesktopValid i = false)
    (n i : Nat) : (attemptLoop env i n).2 = 0 := by
  induction n generalizing i with
  | zero => simp [attemptLoop, hvalid]
  | succ n ih => simp [attemptLoop, hvalid, ih]

/-- When no attempt finds a valid input desktop, `waitForValidInputDesktop` returns
`false`. -/
theorem wait_no_desktop (env : Env) (hvalid : ∀ i, env.inputDesktopValid i = false) :
    (waitForValidInputDesktop env).2 = false := by
  have h0 := attemptLoop_no_desktop env hvalid 599 0
  simp [waitForValidInputDesktop, h0]

/-- Under `hidden`, when `waitForValidInputDesktop` returns `false`, `hostMain` returns 1
having made only the calls of `waitForValidInputDesktop`. -/
theorem hostMain_hidden_no_desktop (command_line : CommandLine) (env : Env)
    (hhidden : command_line.hasSwitch "hidden" = true)
    (hwait : (waitForValidInputDesktop env).2 = false) :
    (hostMain command_line env).exitCode = 1 ∧
      ∀ e ∈ (hostMain command_line env).trace,
        e = .inputDesktop ∨ e = .setThreadDesktop ∨ e = .sleep := by
  have hm : hostMain command_line env = ⟨(waitForValidInputDesktop env).1, 1⟩ := by
    simp only [hostMain, Id.run, hhidden]
    generalize waitForValidInputDesktop env = w at hwait
    obtain ⟨wt, wr⟩ := w
    simp only at hwait
    subst hwait
    simp
  rw [hm]
  exact ⟨rfl, wait_events env⟩

/-- C4, as stated, fails: under `--hidden`, when no valid input desktop is found in any
attempt, `hostMain` itself returns 1 although `import` and `export` are not both present,
the integrity check did not fail (it is not even reached) and no import or export
failed. -/
theorem hostMain_exit_one_counterexample :
    ¬ ((hostMain (.ofSwitches [("hidden", "")]) envNoDesktop).exitCode = 1 →
      Event.exec ∉ (hostMain (.ofSwitches [("hidden", "")]) envNoDesktop).trace →
      ((CommandLine.ofSwitches [("hidden", "")]).hasSwitch "import" = true ∧
          (CommandLine.ofSwitches [("hidden", "")]).hasSwitch "export" = true) ∨
        (Event.integrityCheck ∈ (hostMain (.ofSwitches [("hidden", "")]) envNoDesktop).trace ∧
          envNoDesktop.integrityCheck = false) ∨
        (∃ path silent,
          (Event.importFromFile path silent ∈
              (hostMain (.ofSwitches [("hidden", "")]) envNoDesktop).trace ∧
            envNoDesktop.importFromFile path silent = false) ∨
          (Event.exportToFile path silent ∈
              (hostMain (.ofSwitches [("hidden", "")]) envNoDesktop).trace ∧
            envNoDesktop.exportToFile path silent = false))) := by
  intro hclaim
  obtain ⟨hexit, hev⟩ := hostMain_hidden_no_desktop (.ofSwitches [("hidden", "")]) envNoDesktop
    (by decide) (wait_no_desktop envNoDesktop (fun _ => rfl))
  rcases hclaim hexit (fun h => by simpa using hev _ h) with h | h | ⟨path, silent, h | h⟩
  · exact absurd h.1 (by decide)
  · exact absurd h.2 (by decide)
  · simpa using hev _ h.1
  · simpa using hev _ h.1

/-- C4, amended: whenever `hostMain` itself returns 1 (the value does not come from
`application.exec()`), either `import` and `export` were both specified, or the integrity
check failed, or the requested import or export failed, or `hidden` was specified and
`waitForValidInputDesktop` returned `false` (in none of its 600 attempts was a valid input
desktop both found and set as the thread desktop). -/
theorem hostMain_exit_one (command_line : CommandLine) (env : Env)
    (hexit : (hostMain command_line env).exitCode = 1)
    (hexec : Event.exec ∉ (hostMain command_line env).trace) :
    (command_line.hasSwitch "import" = true ∧ command_line.hasSwitch "export" = true) ∨
      (Event.integrityCheck ∈ (hostMain command_line env).trace ∧
        env.integrityCheck = false) ∨
      (∃ path silent,
        (Event.importFromFile path silent ∈ (hostMain command_line env).trace ∧
          env.importFromFile path silent = false) ∨
        (Event.exportToFile path silent ∈ (hostMain command_line env).trace ∧
          env.exportToFile path silent = false)) ∨
      (command_line.hasSwitch "hidden" = true ∧
        (waitForValidInputDesktop env).2 = false) := by
  rcases hostMain_split command_line env with ⟨pre, hpre, h | h | h⟩
  · rw [h.1] at hexit
    simp at hexit
  · exact Or.inr (Or.inr (Or.inr h.2))
  · rw [h] at hexit hexec
    rw [h]
    revert hexit hexec
    simp only [hostMainFrom, Id.run]
    cases hi : env.integrityCheck
    · intro _ _
      exact Or.inr (Or.inl ⟨by simp, rfl⟩)
    · cases him : command_line.hasSwitch "import" <;>
        cases hex : command_line.hasSwitch "export"
      · cases command_line.hasSwitch "update" <;> cases command_line.hasSwitch "help" <;>
          cases env.isRunning <;> cases command_line.hasSwitch "hidden" <;> simp
      · cases hr : env.exportToFile (command_line.switchValuePath "export")
          (command_line.hasSwitch "silent")
        · intro _ _
          exact Or.inr (Or.inr (Or.inl ⟨_, _, Or.inr ⟨by simp, hr⟩⟩))
        · simp [hr]
      · cases hr : env.importFromFile (command_line.switchValuePath "import")
          (command_line.hasSwitch "silent")
        · intro _ _
          exact Or.inr (Or.inr (Or.inl ⟨_, _, Or.inl ⟨by simp, hr⟩⟩))
        · simp [hr]
      · intro _ _
        exact Or.inl ⟨rfl, rfl⟩

/-- C4, amended, at the command line `--import=in.json --export=out.json`. -/
theorem hostMain_exit_one_witness :
    ((CommandLine.ofSwitches [("import", "in.json"), ("export", "out.json")]).hasSwitch "import" = true ∧
        (CommandLine.ofSwitches [("import", "in.json"), ("export", "out.json")]).hasSwitch "export"
          = true) ∨
      (Event.integrityCheck ∈
          (hostMain (.ofSwitches [("import", "in.json"), ("export", "out.json")]) envOk).trace ∧
        envOk.integrityCheck = false) ∨
      (∃ path silent,
        (Event.importFromFile path silent ∈
            (hostMain (.ofSwitches [("import", "in.json"), ("export", "out.json")]) envOk).trace ∧
          envOk.importFromFile path silent = false) ∨
        (Event.exportToFile path silent ∈
            (hostMain (.ofSwitches [("import", "in.json"), ("export", "out.json")]) envOk).trace ∧
          envOk.exportToFile path silent = false)) ∨
      ((CommandLine.ofSwitches [("import", "in.json"), ("export", "out.json")]).hasSwitch "hidden"
          = true ∧
        (waitForValidInputDesktop envOk).2 = false) :=
  hostMain_exit_one (.ofSwitches [("import", "in.json"), ("export", "out.json")]) envOk
    (by decide) (by decide)

/-- A call of the startup stage belongs to none of the six branches. -/
theorem Event.branch_of_isStartup (e : Event) (h : e.isStartup = true) : e.branch = none := by
  cases e <;> simp_all [Event.isStartup, Event.branch]

/-- C5, as stated, fails: at `--update --import=in.json` the integrity check is reached and
passes, yet no update dialog is shown and the exit code 0 is not the result 7 of the event
loop (the settings are imported instead). -/
theorem hostMain_update_counterexample :
    ¬ ((CommandLine.ofSwitches [("update", ""), ("import", "in.json")]).hasSwitch "update" = true →
      Event.integrityCheck ∈
        (hostMain (.ofSwitches [("update", ""), ("import", "in.json")]) envOk).trace →
      envOk.integrityCheck = true →
      Event.updateDialogShow ∈
          (hostMain (.ofSwitches [("update", ""), ("import", "in.json")]) envOk).trace ∧
        (hostMain (.ofSwitches [("update", ""), ("import", "in.json")]) envOk).exitCode = envOk.exec) := by
  decide

/-- C5, amended: for every command line that contains `update` and neither `import` nor
`export`, whatever else it contains, once the integrity check has been reached and passed,
`hostMain` shows the update dialog, runs the application event loop and returns its
result. -/
theorem hostMain_update (command_line : CommandLine) (env : Env)
    (hupdate : command_line.hasSwitch "update" = true)
    (himport : command_line.hasSwitch "import" = false)
    (hexport : command_line.hasSwitch "export" = false)
    (hreached : Event.integrityCheck ∈ (hostMain command_line env).trace)
    (hintegrity : env.integrityCheck = true) :
    Event.updateDialogShow ∈ (hostMain command_line env).trace ∧
      Event.exec ∈ (hostMain command_line env).trace ∧
      (hostMain command_line env).exitCode = env.exec := by
  rcases hostMain_split command_line env with ⟨pre, hpre, h | h | h⟩
  · rw [h.1] at hreached
    exact absurd (hpre _ hreached) (by decide)
  · rw [h.1] at hreached
    exact absurd (hpre _ hreached) (by decide)
  · rw [h]
    simp [hostMainFrom, Id.run, hintegrity, hupdate, himport, hexport]

/-- C5, amended, at the command line `--update --help --silent`. -/
theorem hostMain_update_witness :
    Event.updateDialogShow ∈
        (hostMain (.ofSwitches [("update", ""), ("help", ""), ("silent", "")]) envOk).trace ∧
      Event.exec ∈ (hostMain (.ofSwitches [("update", ""), ("help", ""), ("silent", "")]) envOk).trace ∧
      (hostMain (.ofSwitches [("update", ""), ("help", ""), ("silent", "")]) envOk).exitCode = 7 :=
  hostMain_update (.ofSwitches [("update", ""), ("help", ""), ("silent", "")]) envOk
    (by decide) (by decide) (by decide) (by decide) (by decide)

/-- C10: once the integrity check has been reached and passed, `hostMain` runs the body of
exactly one of six branches, the first match in the order conflict, `import`, `export`,
`update`, `help`, default.  So the update dialog is shown exactly when `update` is present
and neither `import` nor `export` is; `help` without `import`, `export`, `update` returns 0
and starts no window; the main window is created exactly in the default branch when no
other instance is running; a running instance is activated instead, with exit code 0. -/
theorem hostMain_branches (command_line : CommandLine) (env : Env)
    (hreached : Event.integrityCheck ∈ (hostMain command_line env).trace)
    (hintegrity : env.integrityCheck = true) :
    (∀ e ∈ (hostMain command_line env).trace, ∀ b, e.branch = some b →
        b = selectBranch command_line) ∧
      (match selectBranch command_line with
        | .conflict => (hostMain command_line env).exitCode = 1
        | .doImport =>
          Event.importFromFile (command_line.switchValuePath "import")
            (command_line.hasSwitch "silent") ∈ (hostMain command_line env).trace
        | .doExport =>
          Event.exportToFile (command_line.switchValuePath "export")
            (command_line.hasSwitch "silent") ∈ (hostMain command_line env).trace
        | .update =>
          Event.updateDialogShow ∈ (hostMain command_line env).trace ∧
            (hostMain command_line env).exitCode = env.exec
        | .help => (hostMain command_line env).exitCode = 0
        | .run => Event.isRunning ∈ (hostMain command_line env).trace) ∧
      (Event.updateDialogShow ∈ (hostMain command_line env).trace ↔
        command_line.hasSwitch "update" = true ∧ command_line.hasSwitch "import" = false ∧
          command_line.hasSwitch "export" = false) ∧
      (command_line.hasSwitch "help" = true → command_line.hasSwitch "import" = false →
        command_line.hasSwitch "export" = false → command_line.hasSwitch "update" = false →
        (hostMain command_line env).exitCode = 0 ∧
          Event.mainWindow ∉ (hostMain command_line env).trace ∧
          Event.updateDialogShow ∉ (hostMain command_line env).trace ∧
          Event.exec ∉ (hostMain command_line env).trace) ∧
      (Event.mainWindow ∈ (hostMain command_line env).trace ↔
        selectBranch command_line = .run ∧ env.isRunning = false) ∧
      (selectBranch command_line = .run → env.isRunning = true →
        Event.activate ∈ (hostMain command_line env).trace ∧
          Event.mainWindow ∉ (hostMain command_line env).trace ∧
          (hostMain command_line env).exitCode = 0) := by
  rcases hostMain_split command_line env with ⟨pre, hpre, h | h | h⟩
  · rw [h.1] at hreached
    exact absurd (hpre _ hreached) (by decide)
  · rw [h.1] at hreached
    exact absurd (hpre _ hreached) (by decide)
  · rw [h]
    have hb : ∀ e ∈ pre, ∀ b, e.branch = some b → b = selectBranch command_line := by
      intro e he b hbe
      rw [Event.branch_of_isStartup e (hpre e he)] at hbe
      exact absurd hbe (by simp)
    have n3 : Event.updateDialogShow ∉ pre := fun hm => absurd (hpre _ hm) (by decide)
    have n4 : Event.mainWindow ∉ pre := fun hm => absurd (hpre _ hm) (by decide)
    have n5 : Event.exec ∉ pre := fun hm => absurd (hpre _ hm) (by decide)
    have hall : ∀ (l : List Event),
        (∀ e ∈ l, ∀ b, e.branch = some b → b = selectBranch command_line) →
        ∀ e ∈ pre ++ l, ∀ b, e.branch = some b → b = selectBranch command_line := by
      intro l hl e he
      rcases List.mem_append.mp he with h1 | h1
      · exact hb e h1
      · exact hl e h1
    simp only [hostMainFrom, Id.run, hintegrity]
    generalize command_line.switchValuePath "import" = pi
    generalize command_line.switchValuePath "export" = pe
    cases him : command_line.hasSwitch "import" <;>
      cases hex : command_line.hasSwitch "export"
    · cases hup : command_line.hasSwitch "update"
      · cases hhe : command_line.hasSwitch "help"
        · cases hru : env.isRunning <;> cases hhi : command_line.hasSwitch "hidden" <;>
            refine ⟨hall _ (by simp [selectBranch, Event.branch, him, hex, hup, hhe]), ?_⟩ <;>
            simp [selectBranch, him, hex, hup, hhe, n3, n4, n5]
        · refine ⟨hall _ (by simp [selectBranch, Event.branch, him, hex, hup, hhe]), ?_⟩
          simp [selectBranch, him, hex, hup, hhe, n3, n4, n5]
      · refine ⟨hall _ (by simp [selectBranch, Event.branch, him, hex, hup]), ?_⟩
        simp [selectBranch, him, hex, hup, n3, n4, n5]
    · cases hre : env.exportToFile pe (command_line.hasSwitch "silent") <;>
        refine ⟨hall _ (by simp [selectBranch, Event.branch, him, hex]), ?_⟩ <;>
        simp [selectBranch, him, hex, n3, n4, n5]
    · cases hri : env.importFromFile pi (command_line.hasSwitch "silent") <;>
        refine ⟨hall _ (by simp [selectBranch, Event.branch, him, hex]), ?_⟩ <;>
        simp [selectBranch, him, hex, n3, n4, n5]
    · cases hsi : command_line.hasSwitch "silent" <;>
        refine ⟨hall _ (by simp [selectBranch, Event.branch, him, hex]), ?_⟩ <;>
        simp [selectBranch, him, hex, n3, n4, n5]

/-- C10 at the command line `--help --silent`: the `help` branch is selected, the run
returns 0 and starts neither the main window nor the update dialog. -/
theorem hostMain_branches_witness :
    selectBranch (.ofSwitches [("help", ""), ("silent", "")]) = .help ∧
      (hostMain (.ofSwitches [("help", ""), ("silent", "")]) envOk).exitCode = 0 ∧
      Event.mainWindow ∉ (hostMain (.ofSwitches [("help", ""), ("silent", "")]) envOk).trace ∧
      Event.updateDialogShow ∉ (hostMain (.ofSwitches [("help", ""), ("silent", "")]) envOk).trace ∧
      Event.exec ∉ (hostMain (.ofSwitches [("help", ""), ("silent", "")]) envOk).trace :=
  ⟨by decide,
    (hostMain_branches (.ofSwitches [("help", ""), ("silent", "")]) envOk (by decide) (by decide)).2.2.2.1
      (by decide) (by decide) (by decide) (by decide)⟩

/-- When every attempt the loop can make fails, it makes all `n + 1` of them and leaves
`max_attempt_count` at 0. -/
theorem attemptLoop_all_fail (env : Env) (n i : Nat)
    (hfail : ∀ j, j ≤ n → attemptSucceeds env (i + j) = false) :
    (attemptLoop env i n).2 = 0 ∧ (attemptLoop env i n).1.count .inputDesktop = n + 1 := by
  induction n generalizing i with
  | zero =>
    have h0 := hfail 0 (Nat.le_refl 0)
    simp only [attemptSucceeds, Nat.add_zero, Bool.and_eq_false_iff] at h0
    unfold attemptLoop
    rcases h0 with h0 | h0
    · simp [h0]
    · cases hv : env.inputDesktopValid i <;> simp [h0]
  | succ n ih =>
    have h0 := hfail 0 (Nat.zero_le _)
    simp only [attemptSucceeds, Nat.add_zero, Bool.and_eq_false_iff] at h0
    have hrest := ih (i + 1) (fun j hj => by
      have := hfail (j + 1) (Nat.succ_le_succ hj)
      rwa [show i + (j + 1) = i + 1 + j by omega] at this)
    unfold attemptLoop
    rcases h0 with h0 | h0
    · simp [h0, hrest.1, hrest.2, List.count_cons]
    · cases hv : env.inputDesktopValid i <;>
        simp [h0, hrest.1, hrest.2, List.count_cons]

/-- When attempt `k` is the first to succeed, the loop makes exactly `k + 1` attempts and
leaves `max_attempt_count` at `n + 1 - k`, which is not 0. -/
theorem attemptLoop_first_success (env : Env) (n i k : Nat) (hk : k ≤ n)
    (hfail : ∀ j, j < k → attemptSucceeds env (i + j) = false)
    (hok : attemptSucceeds env (i + k) = true) :
    (attemptLoop env i n).2 = n + 1 - k ∧
      (attemptLoop env i n).1.count .inputDesktop = k + 1 ∧
      (attemptLoop env i n).1.count .setThreadDesktop ≥ 1 := by
  induction n generalizing i k with
  | zero =>
    obtain rfl : k = 0 := Nat.le_zero.mp hk
    simp only [attemptSucceeds, Nat.add_zero, Bool.and_eq_true] at hok
    unfold attemptLoop
    simp [hok.1, hok.2]
  | succ n ih =>
    cases k with
    | zero =>
      simp only [attemptSucceeds, Nat.add_zero, Bool.and_eq_true] at hok
      unfold attemptLoop
      simp [hok.1, hok.2]
    | succ k =>
      have h0 := hfail 0 (Nat.succ_pos k)
      simp only [attemptSucceeds, Nat.add_zero, Bool.and_eq_false_iff] at h0
      have hrest := ih (i + 1) k (Nat.le_of_succ_le_succ hk)
        (fun j hj => by
          have := hfail (j + 1) (Nat.succ_lt_succ hj)
          rwa [show i + (j + 1) = i + 1 + j by omega] at this)
        (by rwa [show i + (k + 1) = i + 1 + k by omega] at hok)
      unfold attemptLoop
      rcases h0 with h0 | h0
      · simp only [h0, Bool.false_eq_true, if_false]
        refine ⟨by rw [hrest.1]; omega, ?_, ?_⟩
        · simp [List.count_cons, hrest.2.1]
        · simp only [List.count_append]
          have := hrest.2.2
          omega
      · cases hv : env.inputDesktopValid i
        · simp only [Bool.false_eq_true, if_false]
          refine ⟨by rw [hrest.1]; omega, ?_, ?_⟩
          · simp [List.count_cons, hrest.2.1]
          · simp only [List.count_append]
            have := hrest.2.2
            omega
        · simp only [h0, Bool.false_eq_true, if_false, if_true]
          refine ⟨by rw [hrest.1]; omega, ?_, ?_⟩
          · simp [List.count_cons, hrest.2.1]
          · simp only [List.count_append]
            have := hrest.2.2
            omega

/-- Among the first `n` attempts from `i` on, either all fail or one is the first to
succeed. -/
theorem first_success_or_all_fail (env : Env) (i n : Nat) :
    (∀ j, j < n → attemptSucceeds env (i + j) = false) ∨
      ∃ k, k < n ∧ (∀ j, j < k → attemptSucceeds env (i + j) = false) ∧
        attemptSucceeds env (i + k) = true := by
  induction n with
  | zero => exact Or.inl (fun j hj => absurd hj (Nat.not_lt_zero j))
  | succ n ih =>
    rcases ih with h | ⟨k, hk, h1, h2⟩
    · cases hn : attemptSucceeds env (i + n)
      · left
        intro j hj
        rcases Nat.lt_succ_iff_lt_or_eq.mp hj with hj | hj
        · exact h j hj
        · rw [hj]; exact hn
      · exact Or.inr ⟨n, Nat.lt_succ_self n, h, hn⟩
    · exact Or.inr ⟨k, Nat.lt_succ_of_lt hk, h1, h2⟩

set_option maxHeartbeats 4000000 in
/-- Without `hidden`, a run of `hostMain` starts with the elevation check, and then either
returns 0 after a successful elevated relaunch or goes on with the rest of the function. -/
theorem hostMain_split_not_hidden (command_line : CommandLine) (env : Env)
    (hhidden : command_line.hasSwitch "hidden" = false) :
    ∃ pre : List Event,
      (pre = [.isProcessElevated] ∨ pre = [.isProcessElevated, .createProcess]) ∧
      (hostMain command_line env = ⟨pre, 0⟩ ∨
        hostMain command_line env =
          ⟨pre ++ (hostMainFrom command_line env).trace,
            (hostMainFrom command_line env).exitCode⟩) := by
  cases he : env.isProcessElevated
  · cases hc : env.createProcess
    · refine ⟨[.isProcessElevated, .createProcess], Or.inr rfl, Or.inr ?_⟩
      simp only [hostMain, hostMainFrom, Id.run, hhidden, he, hc]
      cases env.integrityCheck <;> cases command_line.hasSwitch "import" <;>
        cases command_line.hasSwitch "export" <;> cases command_line.hasSwitch "silent" <;>
        cases command_line.hasSwitch "update" <;> cases command_line.hasSwitch "help" <;>
        cases env.isRunning <;> cases env.importFromFile _ _ <;>
        cases env.exportToFile _ _ <;> rfl
    · refine ⟨[.isProcessElevated, .createProcess], Or.inr rfl, Or.inl ?_⟩
      simp [hostMain, Id.run, hhidden, he, hc]
  · refine ⟨[.isProcessElevated], Or.inl rfl, Or.inr ?_⟩
    simp only [hostMain, hostMainFrom, Id.run, hhidden, he]
    cases env.integrityCheck <;> cases command_line.hasSwitch "import" <;>
      cases command_line.hasSwitch "export" <;> cases command_line.hasSwitch "silent" <;>
      cases command_line.hasSwitch "update" <;> cases command_line.hasSwitch "help" <;>
      cases env.isRunning <;> cases env.importFromFile _ _ <;>
      cases env.exportToFile _ _ <;> rfl

/-- The part of `hostMain` after the startup stage makes no call of the startup stage. -/
theorem hostMainFrom_not_startup (command_line : CommandLine) (env : Env) :
    ∀ e ∈ (hostMainFrom command_line env).trace, e.isStartup = false := by
  simp only [hostMainFrom, Id.run]
  cases env.integrityCheck
  · simp [Event.isStartup]
  cases command_line.hasSwitch "import" <;> cases command_line.hasSwitch "export"
  · cases command_line.hasSwitch "update"
    · cases command_line.hasSwitch "help"
      · cases env.isRunning <;> cases command_line.hasSwitch "hidden" <;>
          simp [Event.isStartup]
      · simp [Event.isStartup]
    · simp [Event.isStartup]
  · cases env.exportToFile _ _ <;> simp [Event.isStartup]
  · cases env.importFromFile _ _ <;> simp [Event.isStartup]
  · cases command_line.hasSwitch "silent" <;> simp [Event.isStartup]

/-- C11: `waitForValidInputDesktop` makes at most 600 attempts and stops at the first
successful one.  It returns `true` exactly when some attempt `k + 1` with `k < 600` finds
a valid input desktop and sets it as the thread desktop after the attempts before it
failed (the 600th included), having made exactly `k + 1` attempts; it returns `false`
exactly when all 600 attempts failed.  `hostMain` calls it only under `hidden`, and
returns 1 when it returns `false`. -/
theorem waitForValidInputDesktop_attempts (env : Env) :
    (waitForValidInputDesktop env).1.count .inputDesktop ≤ 600 ∧
      ((waitForValidInputDesktop env).2 = true ↔
        ∃ k, k < 600 ∧ (∀ j, j < k → attemptSucceeds env j = false) ∧
          attemptSucceeds env k = true) ∧
      (∀ k, k < 600 → (∀ j, j < k → attemptSucceeds env j = false) →
        attemptSucceeds env k = true →
        (waitForValidInputDesktop env).1.count .inputDesktop = k + 1) ∧
      ((∀ j, j < 599 → attemptSucceeds env j = false) → attemptSucceeds env 599 = true →
        (waitForValidInputDesktop env).2 = true) ∧
      ((waitForValidInputDesktop env).2 = false ↔
        ∀ j, j < 600 → attemptSucceeds env j = false) ∧
      (∀ command_line : CommandLine, command_line.hasSwitch "hidden" = false →
        Event.inputDesktop ∉ (hostMain command_line env).trace ∧
          Event.setThreadDesktop ∉ (hostMain command_line env).trace ∧
          Event.sleep ∉ (hostMain command_line env).trace) ∧
      (∀ command_line : CommandLine, command_line.hasSwitch "hidden" = true →
        (waitForValidInputDesktop env).2 = false →
        (hostMain command_line env).exitCode = 1) := by
  have hdef : waitForValidInputDesktop env =
      ((attemptLoop env 0 599).1, !((attemptLoop env 0 599).2 == 0)) := by
    simp only [waitForValidInputDesktop, Nat.reduceSub]
    split_ifs with h <;> simp [h]
  have hfirst : ∀ k, k < 600 → (∀ j, j < k → attemptSucceeds env j = false) →
      attemptSucceeds env k = true →
      (waitForValidInputDesktop env).2 = true ∧
        (waitForValidInputDesktop env).1.count .inputDesktop = k + 1 := by
    intro k hk hfail hok
    have h := attemptLoop_first_success env 599 0 k (by omega)
      (fun j hj => by simpa using hfail j hj) (by simpa using hok)
    rw [hdef]
    refine ⟨?_, h.2.1⟩
    simp only [h.1, Bool.not_eq_true', beq_eq_false_iff_ne, ne_eq]
    omega
  have hnone : (∀ j, j < 600 → attemptSucceeds env j = false) →
      (waitForValidInputDesktop env).2 = false ∧
        (waitForValidInputDesktop env).1.count .inputDesktop = 600 := by
    intro hfail
    have h := attemptLoop_all_fail env 599 0
      (fun j hj => by simpa using hfail j (by omega))
    rw [hdef]
    exact ⟨by simp [h.1], h.2⟩
  refine ⟨?_, ?_, ?_, ?_, ?_, ?_, ?_⟩
  · rcases first_success_or_all_fail env 0 600 with h | ⟨k, hk, h1, h2⟩
    · rw [(hnone (fun j hj => by simpa using h j hj)).2]
    · rw [(hfirst k hk (fun j hj => by simpa using h1 j hj) (by simpa using h2)).2]
      omega
  · constructor
    · intro htrue
      rcases first_success_or_all_fail env 0 600 with h | ⟨k, hk, h1, h2⟩
      · rw [(hnone (fun j hj => by simpa using h j hj)).1] at htrue
        exact absurd htrue (by decide)
      · exact ⟨k, hk, fun j hj => by simpa using h1 j hj, by simpa using h2⟩
    · rintro ⟨k, hk, h1, h2⟩
      exact (hfirst k hk h1 h2).1
  · intro k hk h1 h2
    exact (hfirst k hk h1 h2).2
  · intro h1 h2
    exact (hfirst 599 (by omega) h1 h2).1
  · constructor
    · intro hfalse j hj
      cases hs : attemptSucceeds env j
      · rfl
      · rcases first_success_or_all_fail env 0 600 with h | ⟨k, hk, h1, h2⟩
        · rw [← hs]
          simpa using h j hj
        · rw [(hfirst k hk (fun j hj => by simpa using h1 j hj) (by simpa using h2)).1]
            at hfalse
          exact absurd hfalse (by decide)
    · intro hfail
      exact (hnone hfail).1
  · intro command_line hhidden
    obtain ⟨pre, hpre, h | h⟩ := hostMain_split_not_hidden command_line env hhidden
    · rw [h]
      rcases hpre with rfl | rfl <;> simp
    · rw [h]
      have hfrom := hostMainFrom_not_startup command_line env
      have n1 : Event.inputDesktop ∉ (hostMainFrom command_line env).trace :=
        fun hm => absurd (hfrom _ hm) (by decide)
      have n2 : Event.setThreadDesktop ∉ (hostMainFrom command_line env).trace :=
        fun hm => absurd (hfrom _ hm) (by decide)
      have n3 : Event.sleep ∉ (hostMainFrom command_line env).trace :=
        fun hm => absurd (hfrom _ hm) (by decide)
      rcases hpre with rfl | rfl <;> simp [n1, n2, n3]
  · intro command_line hhidden hwait
    exact (hostMain_hidden_no_desktop command_line env hhidden hwait).1

/-- C11 when only the 600th attempt succeeds: `waitForValidInputDesktop` still returns
`true`, having made 600 attempts. -/
theorem waitForValidInputDesktop_attempts_witness :
    (waitForValidInputDesktop envLastAttempt).2 = true ∧
      (waitForValidInputDesktop envLastAttempt).1.count .inputDesktop = 599 + 1 :=
  ⟨(waitForValidInputDesktop_attempts envLastAttempt).2.2.2.1
      (fun j hj => by simp [attemptSucceeds, envLastAttempt]; omega)
      (by simp [attemptSucceeds, envLastAttempt, envOk]),
    (waitForValidInputDesktop_attempts envLastAttempt).2.2.1 599 (by omega)
      (fun j hj => by simp [attemptSucceeds, envLastAttempt]; omega)
      (by simp [attemptSucceeds, envLastAttempt, envOk])⟩

end Host

/-! ## Properties of the router entry point and of `createConfig` -/

namespace Router

/-- C6: if the settings file exists, or `router.pub` exists, or no new database can be
created, `createConfig` adds no user, writes no file, and does not touch the settings (no
reset, no private key, no flush). -/
theorem createConfig_no_overwrite (env : Env)
    (hexists : env.settingsFileExists = true ∨ env.publicKeyFileExists = true ∨
      env.createDatabase = false) :
    (∀ user, Event.addUser user ∉ createConfig env) ∧
      (∀ path content, Event.writeFile path content ∉ createConfig env) ∧
      Event.settingsReset ∉ createConfig env ∧
      (∀ private_key, Event.settingsSetPrivateKey private_key ∉ createConfig env) ∧
      Event.settingsFlush ∉ createConfig env := by
  simp only [createConfig, Id.run]
  rcases hexists with h | h | h
  · simp [h]
  · cases env.settingsFileExists <;> cases env.commonAppData <;>
      cases env.publicKeyDirExists <;> cases env.createDirectories <;> simp [h]
  · cases env.settingsFileExists <;> cases env.commonAppData <;>
      cases env.publicKeyDirExists <;> cases env.createDirectories <;>
      cases env.publicKeyFileExists <;> simp [h]

/-- C6 on a machine where only the database already exists. -/
theorem createConfig_no_overwrite_witness :
    (∀ user, Event.addUser user ∉
        createConfig { envFresh with createDatabase := false, openDatabase := true }) ∧
      (∀ path content, Event.writeFile path content ∉
        createConfig { envFresh with createDatabase := false, openDatabase := true }) ∧
      Event.settingsReset ∉
        createConfig { envFresh with createDatabase := false, openDatabase := true } ∧
      (∀ private_key, Event.settingsSetPrivateKey private_key ∉
        createConfig { envFresh with createDatabase := false, openDatabase := true }) ∧
      Event.settingsFlush ∉
        createConfig { envFresh with createDatabase := false, openDatabase := true } :=
  createConfig_no_overwrite _ (Or.inr (Or.inr rfl))

/-- The calls of `generateKeys` contain no `addUser`. -/
theorem addedUsers_generateKeys (env : Env) (private_key public_key : ByteArray) :
    addedUsers (generateKeys env private_key public_key).1 = [] := by
  simp only [generateKeys]
  split_ifs <;> rfl

/-- The users `createConfig` adds: the administrator when all earlier steps succeed, none
otherwise. -/
theorem addedUsers_createConfig (env : Env) :
    addedUsers (createConfig env) =
      if env.settingsFileExists = false ∧ env.commonAppData = true ∧
          (env.publicKeyDirExists = true ∨ env.createDirectories = true) ∧
          env.publicKeyFileExists = false ∧ env.createDatabase = true ∧
          env.userIsValid (env.userCreate "admin" "admin") = true then
        [{ env.userCreate "admin" "admin" with
          sessions := env.ROUTER_SESSION_ADMIN ||| env.ROUTER_SESSION_CLIENT,
          flags := env.ENABLED }]
      else [] := by
  have hk := addedUsers_generateKeys env [] []
  simp only [createConfig, Id.run]
  generalize generateKeys env [] [] = keys at hk
  obtain ⟨kt, kr, kpriv, kpub⟩ := keys
  simp only [addedUsers] at hk
  cases env.settingsFileExists
  swap
  · simp [addedUsers]
  cases env.commonAppData
  · simp [addedUsers]
  cases env.publicKeyFileExists
  swap
  · cases env.publicKeyDirExists <;> cases env.createDirectories <;> simp [addedUsers]
  cases env.createDatabase
  · cases env.publicKeyDirExists <;> cases env.createDirectories <;> simp [addedUsers]
  cases env.userIsValid (env.userCreate "admin" "admin")
  · cases env.publicKeyDirExists <;> cases env.createDirectories <;> simp [addedUsers]
  cases env.publicKeyDirExists <;> cases env.createDirectories <;>
    cases env.addUser _ <;> cases kr <;> cases env.writeFile _ _ <;>
    simp [addedUsers, List.filterMap_append, hk]

/-- C7: `createConfig` calls `Database::addUser` at most once, and only with the user that
`base::User::create` builds from the name "admin" and the password "admin", its sessions
mask set to exactly `ROUTER_SESSION_ADMIN | ROUTER_SESSION_CLIENT` and its flags to exactly
`ENABLED`, so that both session kinds are permitted and the account is enabled; it does so
whenever all earlier steps succeed. -/
theorem createConfig_admin_user (env : Env) :
    (addedUsers (createConfig env)).length ≤ 1 ∧
      (∀ user ∈ addedUsers (createConfig env),
        user = { env.userCreate "admin" "admin" with
            sessions := env.ROUTER_SESSION_ADMIN ||| env.ROUTER_SESSION_CLIENT,
            flags := env.ENABLED } ∧
          user.sessions = env.ROUTER_SESSION_ADMIN ||| env.ROUTER_SESSION_CLIENT ∧
          user.flags = env.ENABLED ∧
          user.sessions &&& env.ROUTER_SESSION_ADMIN = env.ROUTER_SESSION_ADMIN ∧
          user.sessions &&& env.ROUTER_SESSION_CLIENT = env.ROUTER_SESSION_CLIENT ∧
          user.flags &&& env.ENABLED = env.ENABLED) ∧
      ((env.settingsFileExists = false ∧ env.commonAppData = true ∧
          (env.publicKeyDirExists = true ∨ env.createDirectories = true) ∧
          env.publicKeyFileExists = false ∧ env.createDatabase = true ∧
          env.userIsValid (env.userCreate "admin" "admin") = true) →
        addedUsers (createConfig env) =
          [{ env.userCreate "admin" "admin" with
            sessions := env.ROUTER_SESSION_ADMIN ||| env.ROUTER_SESSION_CLIENT,
            flags := env.ENABLED }]) := by
  have hand : ∀ a b : Nat, (a ||| b) &&& a = a ∧ (a ||| b) &&& b = b := by
    intro a b
    constructor <;> apply Nat.eq_of_testBit_eq <;> intro i <;>
      simp only [Nat.testBit_and, Nat.testBit_or] <;>
      cases a.testBit i <;> cases b.testBit i <;> rfl
  rw [addedUsers_createConfig]
  refine ⟨?_, ?_, ?_⟩
  · split_ifs <;> simp
  · intro user huser
    split_ifs at huser
    · simp only [List.mem_singleton] at huser
      subst huser
      exact ⟨rfl, rfl, rfl, (hand _ _).1, (hand _ _).2, Nat.and_self _⟩
    · simp at huser
  · intro h
    rw [if_pos h]

/-- C7 on a first installation: the one user added is `admin`, with sessions mask
`4 | 1 = 5` and flags 1. -/
theorem createConfig_admin_user_witness :
    addedUsers (createConfig envFresh) = [⟨0, "admin", [1, 2, 3], 5, 1⟩] :=
  (createConfig_admin_user envFresh).2.2 (by decide)

/-- C8: the router entry point performs exactly one operation per run, chosen by a fixed
precedence: without `OS_WIN` keygen, then create-config, then help, and the server is
started exactly when none of the three switches is present; with `OS_WIN` install, remove,
start, stop come first, in that order, and the service is executed exactly when none of
the seven switches is present. -/
theorem router_entry_precedence (command_line : CommandLine) (env : Env) :
    ((main command_line env).operations.length = 1 ∧
      (command_line.hasSwitch "keygen" = true →
        (main command_line env).operations =
          [.generateAndPrintKeys (generateAndPrintKeys env)]) ∧
      (command_line.hasSwitch "keygen" = false →
        command_line.hasSwitch "create-config" = true →
        (main command_line env).operations = [.createConfig (createConfig env)]) ∧
      (command_line.hasSwitch "keygen" = false →
        command_line.hasSwitch "create-config" = false →
        command_line.hasSwitch "help" = true →
        (main command_line env).operations = [.showHelp (showHelp false)]) ∧
      (Operation.serverStart ∈ (main command_line env).operations ↔
        command_line.hasSwitch "keygen" = false ∧
          command_line.hasSwitch "create-config" = false ∧
          command_line.hasSwitch "help" = false)) ∧
    ((wmain command_line env).operations.length = 1 ∧
      (command_line.hasSwitch "install" = true →
        (wmain command_line env).operations = [.installService]) ∧
      (command_line.hasSwitch "install" = false →
        command_line.hasSwitch "remove" = true →
        (wmain command_line env).operations = [.removeService]) ∧
      (command_line.hasSwitch "install" = false →
        command_line.hasSwitch "remove" = false →
        command_line.hasSwitch "start" = true →
        (wmain command_line env).operations = [.startService]) ∧
      (command_line.hasSwitch "install" = false →
        command_line.hasSwitch "remove" = false →
        command_line.hasSwitch "start" = false →
        command_line.hasSwitch "stop" = true →
        (wmain command_line env).operations = [.stopService]) ∧
      (command_line.hasSwitch "install" = false →
        command_line.hasSwitch "remove" = false →
        command_line.hasSwitch "start" = false →
        command_line.hasSwitch "stop" = false →
        command_line.hasSwitch "keygen" = true →
        (wmain command_line env).operations =
          [.generateAndPrintKeys (generateAndPrintKeys env)]) ∧
      (command_line.hasSwitch "install" = false →
        command_line.hasSwitch "remove" = false →
        command_line.hasSwitch "start" = false →
        command_line.hasSwitch "stop" = false →
        command_line.hasSwitch "keygen" = false →
        command_line.hasSwitch "create-config" = true →
        (wmain command_line env).operations = [.createConfig (createConfig env)]) ∧
      (command_line.hasSwitch "install" = false →
        command_line.hasSwitch "remove" = false →
        command_line.hasSwitch "start" = false →
        command_line.hasSwitch "stop" = false →
        command_line.hasSwitch "keygen" = false →
        command_line.hasSwitch "create-config" = false →
        command_line.hasSwitch "help" = true →
        (wmain command_line env).operations = [.showHelp (showHelp true)]) ∧
      (Operation.serviceExec ∈ (wmain command_line env).operations ↔
        command_line.hasSwitch "install" = false ∧
          command_line.hasSwitch "remove" = false ∧
          command_line.hasSwitch "start" = false ∧
          command_line.hasSwitch "stop" = false ∧
          command_line.hasSwitch "keygen" = false ∧
          command_line.hasSwitch "create-config" = false ∧
          command_line.hasSwitch "help" = false)) := by
  simp only [main, wmain, Id.run]
  generalize generateAndPrintKeys env = k
  generalize createConfig env = c
  constructor
  · cases command_line.hasSwitch "keygen" <;>
      cases command_line.hasSwitch "create-config" <;>
      cases command_line.hasSwitch "help" <;> simp
  · cases command_line.hasSwitch "install" <;> cases command_line.hasSwitch "remove" <;>
      cases command_line.hasSwitch "start" <;> cases command_line.hasSwitch "stop" <;>
      cases command_line.hasSwitch "keygen" <;>
      cases command_line.hasSwitch "create-config" <;>
      cases command_line.hasSwitch "help" <;> simp

/-- C8 at the command line `--help --create-config --keygen`: only the keys are
generated. -/
theorem router_entry_precedence_witness :
    (main (.ofSwitches [("help", ""), ("create-config", ""), ("keygen", "")]) envFresh).operations =
      [.generateAndPrintKeys [.keyPairCreate, .printKeys "ab" "cd"]] :=
  (router_entry_precedence (.ofSwitches [("help", ""), ("create-config", ""), ("keygen", "")])
    envFresh).1.2.1 (by decide)

/-- C12: `createConfig` writes the router settings (reset, set private key, flush) exactly
when every earlier step succeeded, in the order settings file absent, application-data
path and key directory, `router.pub` absent, database created, administrator valid and
added, key pair valid with non-empty keys, public key written.  The private key stored and
the public key written come from the one generated pair.  After the database is created a
run is an initial part of the successful run: it stops at the failing call and undoes
nothing. -/
theorem createConfig_writes_settings (env : Env) :
    (earlierStepsSucceed env = true → createConfig env = successTrace env) ∧
      (Event.settingsReset ∈ createConfig env ↔ earlierStepsSucceed env = true) ∧
      (Event.settingsSetPrivateKey env.keyPair.privateKey ∈ createConfig env ↔
        earlierStepsSucceed env = true) ∧
      (Event.settingsFlush ∈ createConfig env ↔ earlierStepsSucceed env = true) ∧
      (∀ private_key, Event.settingsSetPrivateKey private_key ∈ createConfig env →
        private_key = env.keyPair.privateKey) ∧
      (∀ path content, Event.writeFile path content ∈ createConfig env →
        path = publicKeyFile env ∧ content = env.toHex env.keyPair.publicKey) ∧
      (createConfig env).count .keyPairCreate ≤ 1 ∧
      (databaseCreated env = true →
        createConfig env <+: successTrace env ∧
          Event.createDatabase ∈ createConfig env ∧
          (env.userIsValid (env.userCreate "admin" "admin") = true →
            Event.addUser (adminUser env) ∈ createConfig env)) := by
  simp only [createConfig, generateKeys, Id.run, earlierStepsSucceed, databaseCreated,
    successTrace, adminUser, publicKeyFile]
  cases env.settingsFileExists
  swap
  · simp
  cases env.commonAppData
  · simp
  cases env.publicKeyFileExists
  swap
  · cases env.publicKeyDirExists <;> cases env.createDirectories <;> simp
  cases env.createDatabase
  · cases env.publicKeyDirExists <;> cases env.createDirectories <;> simp
  cases env.userIsValid (env.userCreate "admin" "admin")
  · cases env.publicKeyDirExists <;> cases env.createDirectories <;>
      simp [List.count_cons, List.prefix_iff_eq_append]
  cases env.addUser _
  · cases env.publicKeyDirExists <;> cases env.createDirectories <;>
      simp [List.count_cons, List.prefix_iff_eq_append]
  cases env.keyPair.isValid
  · cases env.publicKeyDirExists <;> cases env.createDirectories <;>
      simp [List.count_cons, List.prefix_iff_eq_append]
  cases env.keyPair.privateKey.isEmpty
  swap
  · cases env.publicKeyDirExists <;> cases env.createDirectories <;>
      simp [List.count_cons, List.prefix_iff_eq_append]
  cases env.keyPair.publicKey.isEmpty
  swap
  · cases env.publicKeyDirExists <;> cases env.createDirectories <;>
      simp [List.count_cons, List.prefix_iff_eq_append]
  cases hw : env.writeFile (env.commonAppDataPath ++ ["aspia", "router.pub"])
    (env.toHex env.keyPair.publicKey)
  · cases env.publicKeyDirExists <;> cases env.createDirectories <;>
      simp [List.count_cons, List.prefix_iff_eq_append, hw]
  · cases env.publicKeyDirExists <;> cases env.createDirectories <;>
      simp [List.count_cons, hw]

/-- C12 on a first installation: every step succeeds, and the run is the successful run,
ending with the public key written to `router.pub` and the private key of the same pair
stored in the settings. -/
theorem createConfig_writes_settings_witness :
    earlierStepsSucceed envFresh = true ∧
      createConfig envFresh =
        [.fileExists ["etc", "aspia", "router.json"], .commonAppData,
          .fileExists ["var", "lib", "aspia"], .createDirectories ["var", "lib", "aspia"],
          .fileExists ["var", "lib", "aspia", "router.pub"], .createDatabase,
          .userCreate "admin" "admin", .addUser ⟨0, "admin", [1, 2, 3], 5, 1⟩,
          .keyPairCreate, .writeFile ["var", "lib", "aspia", "router.pub"] "cd",
          .settings, .settingsReset, .settingsSetPrivateKey [10, 11], .settingsFlush] :=
  ⟨by decide, (createConfig_writes_settings envFresh).1 (by decide)⟩

/-- C13: the exit code of the router entry point carries no failure information: `main`
and `wmain` return 0 for every command line and every outcome of the selected
operation. -/
theorem router_entry_exit_code (command_line : CommandLine) (env : Env) :
    (main command_line env).exitCode = 0 ∧ (wmain command_line env).exitCode = 0 := by
  simp only [main, wmain, Id.run]
  constructor
  · cases command_line.hasSwitch "keygen" <;>
      cases command_line.hasSwitch "create-config" <;>
      cases command_line.hasSwitch "help" <;> rfl
  · cases command_line.hasSwitch "install" <;> cases command_line.hasSwitch "remove" <;>
      cases command_line.hasSwitch "start" <;> cases command_line.hasSwitch "stop" <;>
      cases command_line.hasSwitch "keygen" <;>
      cases command_line.hasSwitch "create-config" <;>
      cases command_line.hasSwitch "help" <;> rfl

/-- C13 on two failing runs: `--create-config` when the settings file already exists stops
after the first check, `--keygen` with an invalid key pair prints nothing, and both return
0, from `main` and from `wmain`. -/
theorem router_entry_exit_code_witness :
    ((main (.ofSwitches [("create-config", "")])
          { envFresh with settingsFileExists := true }).operations =
        [.createConfig [.fileExists ["etc", "aspia", "router.json"]]] ∧
      (main (.ofSwitches [("create-config", "")])
          { envFresh with settingsFileExists := true }).exitCode = 0 ∧
      (wmain (.ofSwitches [("create-config", "")])
          { envFresh with settingsFileExists := true }).exitCode = 0) ∧
    ((main (.ofSwitches [("keygen", "")])
          { envFresh with keyPair := ⟨false, [], []⟩ }).operations =
        [.generateAndPrintKeys [.keyPairCreate]] ∧
      (main (.ofSwitches [("keygen", "")])
          { envFresh with keyPair := ⟨false, [], []⟩ }).exitCode = 0 ∧
      (wmain (.ofSwitches [("keygen", "")])
          { envFresh with keyPair := ⟨false, [], []⟩ }).exitCode = 0) :=
  ⟨⟨by decide,
      router_entry_exit_code (.ofSwitches [("create-config", "")])
        { envFresh with settingsFileExists := true }⟩,
    ⟨by decide,
      router_entry_exit_code (.ofSwitches [("keygen", "")])
        { envFresh with keyPair := ⟨false, [], []⟩ }⟩⟩

end Router

/-! ## The invariant of `UserSessionManager` -/

namespace Host

namespace UserSessionManager

/-- Restarting a session leaves its `sessionId()` alone. -/
theorem sessionId_restart (session : UserSession) (channel : IpcChannel) :
    (session.restart channel).sessionId = session.sessionId := rfl

/-- Updating a session in place leaves its `sessionId()` alone. -/
theorem sessionId_assign (session : UserSession) (v : UserSession.Assigned) :
    (session.assign v).sessionId = session.sessionId := rfl

/-- The search of `addUserSession` finds a session exactly when one has the id. -/
theorem restartExisting_eq_none (session_id : SessionId) (channel : IpcChannel)
    (sessions : List UserSession) :
    restartExisting session_id channel sessions = none ↔
      ∀ session ∈ sessions, session.sessionId ≠ session_id := by
  induction sessions with
  | nil => simp [restartExisting]
  | cons s rest ih =>
    by_cases h : s.sessionId = session_id
    · simp [restartExisting, h]
    · simp [restartExisting, h, ih]

/-- When the search of `addUserSession` finds a session, the result has the same sessions
in the same places, one of them restarted. -/
theorem restartExisting_eq_some (session_id : SessionId) (channel : IpcChannel)
    (sessions result : List UserSession)
    (h : restartExisting session_id channel sessions = some result) :
    result.map UserSession.sessionId = sessions.map UserSession.sessionId ∧
      ∃ before session after, sessions = before ++ session :: after ∧
        session.sessionId = session_id ∧
        (∀ s ∈ before, s.sessionId ≠ session_id) ∧
        result = before ++ session.restart channel :: after := by
  induction sessions generalizing result with
  | nil => simp [restartExisting] at h
  | cons s rest ih =>
    by_cases hs : s.sessionId = session_id
    · simp only [restartExisting, hs, if_true, Option.some.injEq] at h
      subst h
      exact ⟨by simp [sessionId_restart], [], s, rest, rfl, hs, by simp, rfl⟩
    · simp only [restartExisting, hs, if_false, Option.map_eq_some'] at h
      obtain ⟨r, hr, rfl⟩ := h
      obtain ⟨hmap, before, session, after, h1, h2, h3, h4⟩ := ih r hr
      refine ⟨by simp [hmap], s :: before, session, after, by simp [h1], h2, ?_, by simp [h4]⟩
      intro x hx
      rcases List.mem_cons.mp hx with hx | hx
      · exact hx ▸ hs
      · exact h3 x hx

/-- The invariant: no two elements of `sessions_` have the same `sessionId()`. -/
theorem pairwise_sessionId_iff (sessions : List UserSession) :
    sessions.Pairwise (fun a b => a.sessionId ≠ b.sessionId) ↔
      (sessions.map UserSession.sessionId).Nodup := by
  simp [List.Nodup, List.pairwise_map]

/-- C9: in every reachable state of the manager no two elements of `sessions_` have the
same `sessionId()`; `addUserSession(session_id, channel)` restarts the existing session
when one with that id exists, leaving the list otherwise as it is, and appends a new
session with that id only when there is none. -/
theorem one_user_session_per_os_session :
    (∀ manager : UserSessionManager, Reachable manager →
      manager.sessions_.Pairwise (fun a b => a.sessionId ≠ b.sessionId)) ∧
    (∀ (manager : UserSessionManager) (session_id : SessionId) (channel : IpcChannel)
      (type : UserSessionType),
      (∃ session ∈ manager.sessions_, session.sessionId = session_id) →
      ∃ before session after,
        manager.sessions_ = before ++ session :: after ∧
        session.sessionId = session_id ∧
        (∀ s ∈ before, s.sessionId ≠ session_id) ∧
        (manager.addUserSession session_id channel type).sessions_ =
          before ++ session.restart channel :: after) ∧
    (∀ (manager : UserSessionManager) (session_id : SessionId) (channel : IpcChannel)
      (type : UserSessionType),
      (∀ session ∈ manager.sessions_, session.sessionId ≠ session_id) →
      ∃ session, session.sessionId = session_id ∧ session.channel_ = some channel ∧
        (manager.addUserSession session_id channel type).sessions_ =
          manager.sessions_ ++ [session]) := by
  refine ⟨?_, ?_, ?_⟩
  · intro manager hreach
    rw [pairwise_sessionId_iff]
    induction hreach with
    | init router_state => simp
    | @addUserSession m session_id channel type _ ih =>
      unfold addUserSession
      cases hr : restartExisting session_id channel m.sessions_ with
      | none =>
        have hnone := (restartExisting_eq_none session_id channel m.sessions_).mp hr
        simp only [List.map_append, List.map_cons, List.map_nil]
        refine List.Nodup.append ih (List.nodup_singleton _) ?_
        simp only [List.disjoint_singleton, List.mem_map, not_exists, not_and]
        intro s hs heq
        exact hnone s hs heq
      | some result =>
        simp only
        rw [(restartExisting_eq_some session_id channel m.sessions_ result hr).1]
        exact ih
    | @fanOut m router_state f _ ih =>
      simp only [fanOut, List.map_map]
      exact ih
    | @onUserSessionFinished m _ ih =>
      simp only [onUserSessionFinished]
      exact ih.sublist (List.Sublist.map _ (List.filter_sublist _))
  · intro manager session_id channel type hex
    cases hr : restartExisting session_id channel manager.sessions_ with
    | none =>
      obtain ⟨s, hs, heq⟩ := hex
      exact absurd heq ((restartExisting_eq_none _ _ _).mp hr s hs)
    | some result =>
      obtain ⟨_, before, session, after, h1, h2, h3, h4⟩ :=
        restartExisting_eq_some _ _ _ _ hr
      exact ⟨before, session, after, h1, h2, h3, by simp [addUserSession, hr, h4]⟩
  · intro manager session_id channel type hnone
    have hr := (restartExisting_eq_none session_id channel manager.sessions_).mpr hnone
    exact ⟨(UserSession.create session_id channel type).start, rfl, rfl,
      by simp [addUserSession, hr]⟩

/-- C9 on a manager that accepted the helpers of OS sessions 1 and 2 and then a second
helper for session 1: it still holds one session per id. -/
theorem one_user_session_per_os_session_witness :
    ((((UserSessionManager.mk [] 0).addUserSession 1 10 .CONSOLE).addUserSession 2 11
        .RDP).addUserSession 1 12 .CONSOLE).sessions_.Pairwise
      (fun a b => a.sessionId ≠ b.sessionId) :=
  one_user_session_per_os_session.1 _
    (.addUserSession 1 12 .CONSOLE
      (.addUserSession 2 11 .RDP (.addUserSession 1 10 .CONSOLE (.init 0))))

end UserSessionManager

end Host

end Aspia
